import Mathlib

set_option maxHeartbeats 1000000

/-!
Shallow embedding of src/src/util/virtypedparam.c: the libvirt typed-parameter
collection (data model, assignment primitives, accessors, mutators, validator).
The process-wide error sink is modelled explicitly: every operation returns,
next to its C result, the ordered list of errors it reported via
virReportError during the call.
-/

namespace Virt

/-- Error kinds referenced by virtypedparam.c (VIR_ERR_INVALID_ARG,
VIR_ERR_INTERNAL_ERROR, and the out-of-memory report). -/
inductive VirErrCode where
  | invalidArg
  | internalError
  | noMemory
deriving DecidableEq

/-- One reported error: virReportError(code, formatted message). -/
structure VirError where
  code : VirErrCode
  message : String
deriving DecidableEq

/-- Type tag VIR_TYPED_PARAM_INT = 1 (public libvirt enum). -/
def VIR_TYPED_PARAM_INT : Int := 1
/-- Type tag VIR_TYPED_PARAM_UINT = 2. -/
def VIR_TYPED_PARAM_UINT : Int := 2
/-- Type tag VIR_TYPED_PARAM_LLONG = 3. -/
def VIR_TYPED_PARAM_LLONG : Int := 3
/-- Type tag VIR_TYPED_PARAM_ULLONG = 4. -/
def VIR_TYPED_PARAM_ULLONG : Int := 4
/-- Type tag VIR_TYPED_PARAM_DOUBLE = 5. -/
def VIR_TYPED_PARAM_DOUBLE : Int := 5
/-- Type tag VIR_TYPED_PARAM_BOOLEAN = 6. -/
def VIR_TYPED_PARAM_BOOLEAN : Int := 6
/-- Type tag VIR_TYPED_PARAM_STRING = 7. -/
def VIR_TYPED_PARAM_STRING : Int := 7
/-- VIR_TYPED_PARAM_LAST = 8, one past the last valid tag. -/
def VIR_TYPED_PARAM_LAST : Int := 8

/-- VIR_ENUM_IMPL(virTypedParameter, VIR_TYPED_PARAM_LAST, "unknown", "int",
"uint", "llong", "ullong", "double", "boolean", "string"): the generated
virTypedParameterTypeToString returns the name for tags in 0..7 and NULL
(here none) for any tag outside that range. -/
def virTypedParameterTypeToString (t : Int) : Option String :=
  if t = 0 then some "unknown"
  else if t = VIR_TYPED_PARAM_INT then some "int"
  else if t = VIR_TYPED_PARAM_UINT then some "uint"
  else if t = VIR_TYPED_PARAM_LLONG then some "llong"
  else if t = VIR_TYPED_PARAM_ULLONG then some "ullong"
  else if t = VIR_TYPED_PARAM_DOUBLE then some "double"
  else if t = VIR_TYPED_PARAM_BOOLEAN then some "boolean"
  else if t = VIR_TYPED_PARAM_STRING then some "string"
  else none

/-- What printf renders for a possibly-NULL string argument (glibc prints
"(null)" for a NULL passed to %s); the tags reaching the formatters in the
verified scenarios are always in range, so the fallback is never exercised
there. -/
def tsOrNull (t : Int) : String :=
  (virTypedParameterTypeToString t).getD "(null)"

/-- The value union of virTypedParameter (int i; unsigned int ui; long long l;
unsigned long long ul; double d; char b; char *s). Each arm is kept as its
own component; C writes exactly the arm selected by the type tag and reads
back the same arm, so the overlap of the union storage is never observed.
Machine integers are embedded as Int/Nat (the C callers guarantee the ranges);
the double arm is its IEEE-754 bit pattern as a Nat, since the code only ever
copies it; the string arm is an owned, possibly NULL (none) pointer. -/
structure VirValue where
  i : Int := 0
  ui : Nat := 0
  l : Int := 0
  ul : Nat := 0
  d : Nat := 0
  b : Bool := false
  s : Option String := none
deriving DecidableEq

/-- virTypedParameter: bounded name field, type tag, value union.
A zero-filled slot (fresh allocation) is the default instance. -/
structure VirTypedParameter where
  field : String := ""
  type : Int := 0
  value : VirValue := {}
deriving DecidableEq

/-- The caller-held triple (virTypedParameterPtr *params, int *nparams,
int *maxparams): the allocation holds `maxparams` slots of which the first
`nparams` are live. The allocation is the list itself, so its length is the
capacity; counts are embedded as Nat since the contract keeps them
non-negative. -/
structure VirTypedParamsBuf where
  params : List VirTypedParameter
  nparams : Nat
  maxparams : Nat
deriving DecidableEq

/-- The collection invariant assumed by the public mutators: the capacity
cursor tells the truth about the allocation and count does not exceed it. -/
def wellFormed (s : VirTypedParamsBuf) : Prop :=
  s.params.length = s.maxparams ∧ s.nparams ≤ s.maxparams

instance (s : VirTypedParamsBuf) : Decidable (wellFormed s) := by
  unfold wellFormed; infer_instance

/-- Modelled from the spec: `virStrcpyStatic` (virutil.c, not in src/) copies
the name into the slot's bounded name field and returns NULL when it does not
fit; the bound is VIR_TYPED_PARAM_FIELD_LENGTH = 80 bytes including the
terminator, so a name fits exactly when its length is at most 79. -/
def virStrcpyStaticOk (name : String) : Bool :=
  name.length ≤ 79

/-- ASCII lower-casing of one character, as done byte-wise by the C-locale
case-insensitive comparison. -/
def asciiLower (c : Char) : Char :=
  if 'A' ≤ c ∧ c ≤ 'Z' then Char.ofNat (c.toNat + 32) else c

/-- Modelled from the spec: STRCASEEQ (c_strcasecmp, not in src/), C-locale
case-insensitive string equality. -/
def strCaseEq (a b : String) : Bool :=
  a.data.map asciiLower == b.data.map asciiLower

/-- Value of a non-empty all-digit character list, base 10. -/
def digitsVal (cs : List Char) : Option Nat :=
  if cs ≠ [] ∧ cs.all (fun c => c.isDigit) then
    some (cs.foldl (fun a c => a * 10 + (c.toNat - 48)) 0)
  else none

/-- Modelled from the spec: the base-10 integer parse shared by the
virStrToLong family (virutil.c, not in src/): "base-10 parse of the full
string; out-of-range or non-numeric input → invalid-argument". An optional
sign followed by one or more decimal digits, consuming the whole string. -/
def parseDecInt (s : String) : Option Int :=
  match s.data with
  | '-' :: rest => (digitsVal rest).map (fun n => -(n : Int))
  | '+' :: rest => (digitsVal rest).map (fun n => (n : Int))
  | cs => (digitsVal cs).map (fun n => (n : Int))

/-- Modelled from the spec: virStrToLong_i with a NULL end pointer — full
base-10 parse, failing outside the signed 32-bit range. -/
def virStrToLong_i (s : String) : Option Int :=
  (parseDecInt s).bind (fun v => if -(2 ^ 31) ≤ v ∧ v < 2 ^ 31 then some v else none)

/-- Modelled from the spec: virStrToLong_ui — full base-10 parse, failing
outside the unsigned 32-bit range. -/
def virStrToLong_ui (s : String) : Option Nat :=
  (parseDecInt s).bind (fun v => if 0 ≤ v ∧ v < 2 ^ 32 then some v.toNat else none)

/-- Modelled from the spec: virStrToLong_ll — full base-10 parse, failing
outside the signed 64-bit range. -/
def virStrToLong_ll (s : String) : Option Int :=
  (parseDecInt s).bind (fun v => if -(2 ^ 63) ≤ v ∧ v < 2 ^ 63 then some v else none)

/-- Modelled from the spec: virStrToLong_ull — full base-10 parse, failing
outside the unsigned 64-bit range. -/
def virStrToLong_ull (s : String) : Option Nat :=
  (parseDecInt s).bind (fun v => if 0 ≤ v ∧ v < 2 ^ 64 then some v.toNat else none)

/-- Shape of a plain decimal mantissa: digits, optionally followed by a point
and more digits. -/
def mantissaShaped (cs : List Char) : Bool :=
  let intPart := cs.takeWhile (fun c => c.isDigit)
  let rest := cs.dropWhile (fun c => c.isDigit)
  intPart ≠ [] &&
    (rest = [] ||
      (match rest with
       | '.' :: fr => fr ≠ [] && fr.all (fun c => c.isDigit)
       | _ => false))

/-- Injective packing of the accepted text, standing in for the produced
IEEE-754 bit pattern. -/
def strBits (s : String) : Nat :=
  s.data.foldl (fun a c => a * 1114112 + c.toNat) 1

/-- Modelled from the spec: virStrToDouble (virutil.c, not in src/),
"locale-independent decimal float parse". The accepted texts are plain
decimal numbers with an optional sign; the resulting bit pattern is
abstracted by an injective encoding of the text, since no verified claim
inspects the numeric value of a parsed double. -/
def virStrToDouble (s : String) : Option Nat :=
  match s.data with
  | '-' :: rest => if mantissaShaped rest then some (strBits s) else none
  | '+' :: rest => if mantissaShaped rest then some (strBits s) else none
  | cs => if mantissaShaped cs then some (strBits s) else none

/-- The value slot of a varargs call to virTypedParameterAssign: the caller
pushes the native value matching the tag. -/
inductive VirTypedArg where
  | aInt (v : Int)
  | aUInt (v : Nat)
  | aLLong (v : Int)
  | aULLong (v : Nat)
  | aDouble (v : Nat)
  | aBoolean (v : Int)
  | aString (v : Option String)
deriving DecidableEq

/-- va_arg(ap, int): used by the int and boolean arms. A mismatched argument
kind is varargs undefined behaviour in C and unreachable from the call sites
embedded here; the default is arbitrary. -/
def VirTypedArg.argInt : VirTypedArg → Int
  | .aInt v => v
  | .aBoolean v => v
  | _ => 0

/-- va_arg(ap, unsigned int). -/
def VirTypedArg.argUInt : VirTypedArg → Nat
  | .aUInt v => v
  | _ => 0

/-- va_arg(ap, long long int). -/
def VirTypedArg.argLLong : VirTypedArg → Int
  | .aLLong v => v
  | _ => 0

/-- va_arg(ap, unsigned long long int). -/
def VirTypedArg.argULLong : VirTypedArg → Nat
  | .aULLong v => v
  | _ => 0

/-- va_arg(ap, double), as a bit pattern. -/
def VirTypedArg.argDouble : VirTypedArg → Nat
  | .aDouble v => v
  | _ => 0

/-- va_arg(ap, char *): an owned, possibly NULL string. -/
def VirTypedArg.argStr : VirTypedArg → Option String
  | .aString v => v
  | _ => none

/-- "Field name '%s' too long" (VIR_ERR_INTERNAL_ERROR). -/
def errFieldTooLong (name : String) : VirError :=
  ⟨.internalError, "Field name \x27" ++ name ++ "\x27 too long"⟩

/-- "unexpected type %d for field %s" (VIR_ERR_INTERNAL_ERROR). -/
def errUnexpectedType (t : Int) (name : String) : VirError :=
  ⟨.internalError, "unexpected type " ++ toString t ++ " for field " ++ name⟩

/-- "NULL value for field '%s'" (VIR_ERR_INVALID_ARG). -/
def errNullValue (name : String) : VirError :=
  ⟨.invalidArg, "NULL value for field \x27" ++ name ++ "\x27"⟩

/-- "Invalid value for field '%s': expected %s" (VIR_ERR_INVALID_ARG). -/
def errInvalidValue (name what : String) : VirError :=
  ⟨.invalidArg, "Invalid value for field \x27" ++ name ++ "\x27: expected " ++ what⟩

/-- "Invalid boolean value for field '%s'" (VIR_ERR_INVALID_ARG). -/
def errInvalidBoolean (name : String) : VirError :=
  ⟨.invalidArg, "Invalid boolean value for field \x27" ++ name ++ "\x27"⟩

/-- "Parameter '%s' is already set" (VIR_ERR_INVALID_ARG). -/
def errAlreadySet (name : String) : VirError :=
  ⟨.invalidArg, "Parameter \x27" ++ name ++ "\x27 is already set"⟩

/-- "parameter '%s' not supported" (VIR_ERR_INVALID_ARG). -/
def errNotSupported (nm : String) : VirError :=
  ⟨.invalidArg, "parameter \x27" ++ nm ++ "\x27 not supported"⟩

/-- "parameter '%s' occurs multiple times" (VIR_ERR_INVALID_ARG). -/
def errOccursMultipleTimes (nm : String) : VirError :=
  ⟨.invalidArg, "parameter \x27" ++ nm ++ "\x27 occurs multiple times"⟩

/-- VIR_TYPED_PARAM_CHECK_TYPE: "Invalid type '%s' requested for parameter
'%s', actual type is '%s'" (VIR_ERR_INVALID_ARG). -/
def errTypeMismatchGet (check : Int) (name : String) (actual : Int) : VirError :=
  ⟨.invalidArg,
    "Invalid type \x27" ++ tsOrNull check ++ "\x27 requested for parameter \x27" ++
      name ++ "\x27, actual type is \x27" ++ tsOrNull actual ++ "\x27"⟩

/-- virTypedParameterArrayValidate mismatch report: "invalid type '%s' for
parameter '%s', expected '%s'"; a NULL badtype (out-of-range actual tag) is
replaced by virTypedParameterTypeToString(0) before formatting. -/
def errInvalidTypeValidate (p : VirTypedParameter) (expected : Int) : VirError :=
  ⟨.invalidArg,
    "invalid type \x27" ++
      ((virTypedParameterTypeToString p.type).getD
        ((virTypedParameterTypeToString 0).getD "(null)")) ++
      "\x27 for parameter \x27" ++ p.field ++ "\x27, expected \x27" ++
      tsOrNull expected ++ "\x27"⟩

/-- virTypedParameterAssign(param, name, type, ...): copy the name into the
bounded field (internal-error when too long), set the tag, then store the
payload arm selected by the tag; boolean input is normalized with !!; a NULL
string is replaced by an owned strdup("") (allocation is total in this
embedding); an out-of-range tag is an internal-error. Returns the C result,
the slot as left in memory, and the reported errors. -/
def virTypedParameterAssign (param : VirTypedParameter) (name : String)
    (type : Int) (arg : VirTypedArg) : Int × VirTypedParameter × List VirError :=
  if virStrcpyStaticOk name = true then
    if type = VIR_TYPED_PARAM_INT then
      (0, { param with
            field := name, type := type,
            value := { param.value with i := arg.argInt } }, [])
    else if type = VIR_TYPED_PARAM_UINT then
      (0, { param with
            field := name, type := type,
            value := { param.value with ui := arg.argUInt } }, [])
    else if type = VIR_TYPED_PARAM_LLONG then
      (0, { param with
            field := name, type := type,
            value := { param.value with l := arg.argLLong } }, [])
    else if type = VIR_TYPED_PARAM_ULLONG then
      (0, { param with
            field := name, type := type,
            value := { param.value with ul := arg.argULLong } }, [])
    else if type = VIR_TYPED_PARAM_DOUBLE then
      (0, { param with
            field := name, type := type,
            value := { param.value with d := arg.argDouble } }, [])
    else if type = VIR_TYPED_PARAM_BOOLEAN then
      (0, { param with
            field := name, type := type,
            value := { param.value with b := if arg.argInt = 0 then false else true } }, [])
    else if type = VIR_TYPED_PARAM_STRING then
      (0, { param with
            field := name, type := type,
            value := { param.value with s := some (arg.argStr.getD "") } }, [])
    else
      (-1, { param with field := name, type := type }, [errUnexpectedType type name])
  else
    (-1, param, [errFieldTooLong name])

/-- virTypedParameterAssignFromStr(param, name, type, val): NULL text is an
invalid-argument; then the name copy and tag store as in the native
assignment; then the text is parsed according to the tag (string: an owned
copy of the text). -/
def virTypedParameterAssignFromStr (param : VirTypedParameter) (name : String)
    (type : Int) (val : Option String) : Int × VirTypedParameter × List VirError :=
  match val with
  | none => (-1, param, [errNullValue name])
  | some v =>
    if virStrcpyStaticOk name = true then
      if type = VIR_TYPED_PARAM_INT then
        match virStrToLong_i v with
        | some x => (0, { param with
                          field := name, type := type,
                          value := { param.value with i := x } }, [])
        | none => (-1, { param with field := name, type := type },
                   [errInvalidValue name "int"])
      else if type = VIR_TYPED_PARAM_UINT then
        match virStrToLong_ui v with
        | some x => (0, { param with
                          field := name, type := type,
                          value := { param.value with ui := x } }, [])
        | none => (-1, { param with field := name, type := type },
                   [errInvalidValue name "unsigned int"])
      else if type = VIR_TYPED_PARAM_LLONG then
        match virStrToLong_ll v with
        | some x => (0, { param with
                          field := name, type := type,
                          value := { param.value with l := x } }, [])
        | none => (-1, { param with field := name, type := type },
                   [errInvalidValue name "long long"])
      else if type = VIR_TYPED_PARAM_ULLONG then
        match virStrToLong_ull v with
        | some x => (0, { param with
                          field := name, type := type,
                          value := { param.value with ul := x } }, [])
        | none => (-1, { param with field := name, type := type },
                   [errInvalidValue name "unsigned long long"])
      else if type = VIR_TYPED_PARAM_DOUBLE then
        match virStrToDouble v with
        | some x => (0, { param with
                          field := name, type := type,
                          value := { param.value with d := x } }, [])
        | none => (-1, { param with field := name, type := type },
                   [errInvalidValue name "double"])
      else if type = VIR_TYPED_PARAM_BOOLEAN then
        if strCaseEq v "true" || v == "1" then
          (0, { param with
                field := name, type := type,
                value := { param.value with b := true } }, [])
        else if strCaseEq v "false" || v == "0" then
          (0, { param with
                field := name, type := type,
                value := { param.value with b := false } }, [])
        else
          (-1, { param with field := name, type := type }, [errInvalidBoolean name])
      else if type = VIR_TYPED_PARAM_STRING then
        (0, { param with
              field := name, type := type,
              value := { param.value with s := some v } }, [])
      else
        (-1, { param with field := name, type := type }, [errUnexpectedType type name])
    else
      (-1, param, [errFieldTooLong name])

/-- virTypedParamsGet(params, nparams, name): resets the last error, yields
NULL for NULL params or name, otherwise linearly scans the first nparams
slots for the first case-sensitively matching name. Never reports an error
(the second component is its reported-error list). -/
def virTypedParamsGet (params : Option (List VirTypedParameter)) (nparams : Nat)
    (name : Option String) : Option VirTypedParameter × List VirError :=
  match params, name with
  | some ps, some nm => ((ps.take nparams).find? (fun p => p.field == nm), [])
  | _, _ => (none, [])

/-- virTypedParamsGetInt: tri-state result; the out-parameter is modelled as
(hasOut flag, written value). -/
def virTypedParamsGetInt (params : List VirTypedParameter) (nparams : Nat)
    (name : String) (hasOut : Bool) : Int × Option Int × List VirError :=
  match (virTypedParamsGet (some params) nparams (some name)).1 with
  | none => (0, none, [])
  | some param =>
    if param.type = VIR_TYPED_PARAM_INT then
      (1, if hasOut then some param.value.i else none, [])
    else
      (-1, none, [errTypeMismatchGet VIR_TYPED_PARAM_INT name param.type])

/-- virTypedParamsGetUInt. -/
def virTypedParamsGetUInt (params : List VirTypedParameter) (nparams : Nat)
    (name : String) (hasOut : Bool) : Int × Option Nat × List VirError :=
  match (virTypedParamsGet (some params) nparams (some name)).1 with
  | none => (0, none, [])
  | some param =>
    if param.type = VIR_TYPED_PARAM_UINT then
      (1, if hasOut then some param.value.ui else none, [])
    else
      (-1, none, [errTypeMismatchGet VIR_TYPED_PARAM_UINT name param.type])

/-- virTypedParamsGetLLong. -/
def virTypedParamsGetLLong (params : List VirTypedParameter) (nparams : Nat)
    (name : String) (hasOut : Bool) : Int × Option Int × List VirError :=
  match (virTypedParamsGet (some params) nparams (some name)).1 with
  | none => (0, none, [])
  | some param =>
    if param.type = VIR_TYPED_PARAM_LLONG then
      (1, if hasOut then some param.value.l else none, [])
    else
      (-1, none, [errTypeMismatchGet VIR_TYPED_PARAM_LLONG name param.type])

/-- virTypedParamsGetULLong. -/
def virTypedParamsGetULLong (params : List VirTypedParameter) (nparams : Nat)
    (name : String) (hasOut : Bool) : Int × Option Nat × List VirError :=
  match (virTypedParamsGet (some params) nparams (some name)).1 with
  | none => (0, none, [])
  | some param =>
    if param.type = VIR_TYPED_PARAM_ULLONG then
      (1, if hasOut then some param.value.ul else none, [])
    else
      (-1, none, [errTypeMismatchGet VIR_TYPED_PARAM_ULLONG name param.type])

/-- virTypedParamsGetDouble (the value travels as a bit pattern). -/
def virTypedParamsGetDouble (params : List VirTypedParameter) (nparams : Nat)
    (name : String) (hasOut : Bool) : Int × Option Nat × List VirError :=
  match (virTypedParamsGet (some params) nparams (some name)).1 with
  | none => (0, none, [])
  | some param =>
    if param.type = VIR_TYPED_PARAM_DOUBLE then
      (1, if hasOut then some param.value.d else none, [])
    else
      (-1, none, [errTypeMismatchGet VIR_TYPED_PARAM_DOUBLE name param.type])

/-- virTypedParamsGetBoolean: the stored char is normalized with !! on the
way out, so the out value is 0 or 1. -/
def virTypedParamsGetBoolean (params : List VirTypedParameter) (nparams : Nat)
    (name : String) (hasOut : Bool) : Int × Option Int × List VirError :=
  match (virTypedParamsGet (some params) nparams (some name)).1 with
  | none => (0, none, [])
  | some param =>
    if param.type = VIR_TYPED_PARAM_BOOLEAN then
      (1, if hasOut then some (if param.value.b then 1 else 0) else none, [])
    else
      (-1, none, [errTypeMismatchGet VIR_TYPED_PARAM_BOOLEAN name param.type])

/-- virTypedParamsGetString: a borrowed view of the owned payload. -/
def virTypedParamsGetString (params : List VirTypedParameter) (nparams : Nat)
    (name : String) (hasOut : Bool) : Int × Option String × List VirError :=
  match (virTypedParamsGet (some params) nparams (some name)).1 with
  | none => (0, none, [])
  | some param =>
    if param.type = VIR_TYPED_PARAM_STRING then
      (1, if hasOut then param.value.s else none, [])
    else
      (-1, none, [errTypeMismatchGet VIR_TYPED_PARAM_STRING name param.type])

/-- A zero-filled parameter slot, as left by a fresh zeroed allocation. -/
def zeroSlot : VirTypedParameter := {}

/-- Modelled from the spec: VIR_RESIZE_N (viralloc.c, not in src/) — the
collection "grows on demand" with an amortized-doubling policy; when one more
slot is needed beyond the capacity, the allocation grows to
max(count + 1, 2 * capacity) slots, the fresh slots zero-filled; allocation
is total in this embedding (no out-of-memory). Returns the array and the new
capacity. -/
def virResizeN (arr : List VirTypedParameter) (max n : Nat) :
    List VirTypedParameter × Nat :=
  if n + 1 ≤ max then (arr, max)
  else
    (arr.take (Nat.max (n + 1) (2 * max)) ++
       List.replicate (Nat.max (n + 1) (2 * max) - arr.length) zeroSlot,
     Nat.max (n + 1) (2 * max))

/-- The shared body of the virTypedParamsAdd* mutators: VIR_TYPED_PARAM_CHECK
(fail with "already set" when the name is present among the live slots),
resize for one more slot, run the slot initializer on the fresh slot, and
commit (increment the count) only when the initializer succeeded; on
initializer failure the slot's partial writes stay in the allocation but the
count does not move. -/
def virTypedParamsAddGen (s : VirTypedParamsBuf) (name : String)
    (f : VirTypedParameter → Int × VirTypedParameter × List VirError) :
    Int × VirTypedParamsBuf × List VirError :=
  match (virTypedParamsGet (some s.params) s.nparams (some name)).1 with
  | some _ => (-1, s, [errAlreadySet name])
  | none =>
    let arr := (virResizeN s.params s.maxparams s.nparams).1
    let newmax := (virResizeN s.params s.maxparams s.nparams).2
    let a := f (arr.getD s.nparams zeroSlot)
    if a.1 < 0 then
      (-1, ⟨arr.set s.nparams a.2.1, s.nparams, newmax⟩, a.2.2)
    else
      (0, ⟨arr.set s.nparams a.2.1, s.nparams + 1, newmax⟩, a.2.2)

/-- virTypedParamsAddInt. -/
def virTypedParamsAddInt (s : VirTypedParamsBuf) (name : String) (value : Int) :
    Int × VirTypedParamsBuf × List VirError :=
  virTypedParamsAddGen s name
    (fun p => virTypedParameterAssign p name VIR_TYPED_PARAM_INT (.aInt value))

/-- virTypedParamsAddUInt. -/
def virTypedParamsAddUInt (s : VirTypedParamsBuf) (name : String) (value : Nat) :
    Int × VirTypedParamsBuf × List VirError :=
  virTypedParamsAddGen s name
    (fun p => virTypedParameterAssign p name VIR_TYPED_PARAM_UINT (.aUInt value))

/-- virTypedParamsAddLLong. -/
def virTypedParamsAddLLong (s : VirTypedParamsBuf) (name : String) (value : Int) :
    Int × VirTypedParamsBuf × List VirError :=
  virTypedParamsAddGen s name
    (fun p => virTypedParameterAssign p name VIR_TYPED_PARAM_LLONG (.aLLong value))

/-- virTypedParamsAddULLong. -/
def virTypedParamsAddULLong (s : VirTypedParamsBuf) (name : String) (value : Nat) :
    Int × VirTypedParamsBuf × List VirError :=
  virTypedParamsAddGen s name
    (fun p => virTypedParameterAssign p name VIR_TYPED_PARAM_ULLONG (.aULLong value))

/-- virTypedParamsAddDouble. -/
def virTypedParamsAddDouble (s : VirTypedParamsBuf) (name : String) (value : Nat) :
    Int × VirTypedParamsBuf × List VirError :=
  virTypedParamsAddGen s name
    (fun p => virTypedParameterAssign p name VIR_TYPED_PARAM_DOUBLE (.aDouble value))

/-- virTypedParamsAddBoolean. -/
def virTypedParamsAddBoolean (s : VirTypedParamsBuf) (name : String) (value : Int) :
    Int × VirTypedParamsBuf × List VirError :=
  virTypedParamsAddGen s name
    (fun p => virTypedParameterAssign p name VIR_TYPED_PARAM_BOOLEAN (.aBoolean value))

/-- virTypedParamsAddString: a non-NULL value is copied (strdup) and the
copy is handed to the assignment, which owns it; a NULL value is passed
through as NULL and the assignment synthesizes an owned empty string. -/
def virTypedParamsAddString (s : VirTypedParamsBuf) (name : String)
    (value : Option String) : Int × VirTypedParamsBuf × List VirError :=
  virTypedParamsAddGen s name
    (fun p => virTypedParameterAssign p name VIR_TYPED_PARAM_STRING (.aString value))

/-- virTypedParamsAddFromString. -/
def virTypedParamsAddFromString (s : VirTypedParamsBuf) (name : String)
    (type : Int) (value : Option String) : Int × VirTypedParamsBuf × List VirError :=
  virTypedParamsAddGen s name
    (fun p => virTypedParameterAssignFromStr p name type value)

/-- The schema lookup inside virTypedParameterArrayValidate: the varargs
name/type pairs are scanned in order until the first matching name; its
declared type is the result. -/
def findSchema (schema : List (String × Int)) (nm : String) : Option Int :=
  (schema.find? (fun e => e.1 == nm)).map (fun e => e.2)

/-- The loop body of virTypedParameterArrayValidate over the remaining
parameters, carrying the already-processed prefix (for the duplicate scan)
and the error trace. A parameter whose name misses the schema stops the loop
with "not supported"; a name found in the schema first gets a mismatch
report appended (without stopping!) when its type differs, then the
duplicate scan over the prior parameters stops the loop with "occurs
multiple times" on a collision. -/
def validateGo (schema : List (String × Int)) (prior : List VirTypedParameter) :
    List VirTypedParameter → List VirError → Int × List VirError
  | [], errs => (0, errs)
  | p :: rest, errs =>
    match findSchema schema p.field with
    | none => (-1, errs ++ [errNotSupported p.field])
    | some ty =>
      let errs1 := if p.type = ty then errs else errs ++ [errInvalidTypeValidate p ty]
      if prior.any (fun q => q.field == p.field) then
        (-1, errs1 ++ [errOccursMultipleTimes p.field])
      else
        validateGo schema (prior ++ [p]) rest errs1

/-- virTypedParameterArrayValidate(params, nparams, ...): the varargs schema
is embedded as an ordered (name, type) list. Returns the C result and the
reported-error trace. -/
def virTypedParameterArrayValidate (params : List VirTypedParameter)
    (nparams : Nat) (schema : List (String × Int)) : Int × List VirError :=
  validateGo schema [] (params.take nparams) []

/-- One step of the validator passes a parameter without stopping: its name
is in the schema and no prior parameter shares the name. (A type mismatch
also passes — the C loop keeps going after reporting it.) -/
def passesValidate (schema : List (String × Int)) (prior : List VirTypedParameter)
    (p : VirTypedParameter) : Bool :=
  (findSchema schema p.field).isSome && !(prior.any (fun q => q.field == p.field))

/-- Every element of the list passes the validator step, each against the
prior parameters accumulated so far. -/
def cleanChain (schema : List (String × Int)) (prior : List VirTypedParameter) :
    List VirTypedParameter → Bool
  | [] => true
  | p :: l => passesValidate schema prior p && cleanChain schema (prior ++ [p]) l

/-- An empty collection handle. -/
def emptyBuf : VirTypedParamsBuf := ⟨[], 0, 0⟩

/-- A parameter slot with the given name and tag and a zero value. -/
def mkP (nm : String) (t : Int) : VirTypedParameter :=
  { field := nm, type := t }

/-- The fresh slot handed to the initializer by the shared mutator body:
the slot at index count after the resize. -/
def resSlot (s : VirTypedParamsBuf) : VirTypedParameter :=
  (virResizeN s.params s.maxparams s.nparams).1.getD s.nparams zeroSlot

lemma take_set_succ {A : Type} (l : List A) (n : Nat) (a : A) (h : n < l.length) :
    (l.set n a).take (n + 1) = l.take n ++ [a] := by
  induction l generalizing n with
  | nil => simp at h
  | cons x xs ih =>
    cases n with
    | zero => simp
    | succ m =>
      have h2 : m < xs.length := by simpa using h
      show x :: (xs.set m a).take (m + 1) = (x :: xs.take m) ++ [a]
      simp [ih m h2]

lemma find?_append_none {A : Type} (l1 l2 : List A) (p : A → Bool)
    (h : l1.find? p = none) : (l1 ++ l2).find? p = l2.find? p := by
  simp [List.find?_append, h]

lemma virResizeN_spec (arr : List VirTypedParameter) (max n : Nat)
    (hlen : arr.length = max) (hn : n ≤ max) :
    (virResizeN arr max n).1.take n = arr.take n ∧
      n < (virResizeN arr max n).1.length := by
  unfold virResizeN
  by_cases h : n + 1 ≤ max
  · rw [if_pos h]
    refine ⟨rfl, ?_⟩
    show n < arr.length
    omega
  · rw [if_neg h]
    have hge : n + 1 ≤ Nat.max (n + 1) (2 * max) := Nat.le_max_left _ _
    constructor
    · show (arr.take (Nat.max (n + 1) (2 * max)) ++
          List.replicate (Nat.max (n + 1) (2 * max) - arr.length) zeroSlot).take n
          = arr.take n
      rw [List.take_append_of_le_length
            (by simp only [List.length_take]; omega)]
      rw [List.take_take, Nat.min_eq_left (by omega)]
    · show n < (arr.take (Nat.max (n + 1) (2 * max)) ++
          List.replicate (Nat.max (n + 1) (2 * max) - arr.length) zeroSlot).length
      simp only [List.length_append, List.length_take, List.length_replicate]
      omega

lemma addGen_dup (s : VirTypedParamsBuf) (name : String)
    (f : VirTypedParameter → Int × VirTypedParameter × List VirError)
    (h : (virTypedParamsGet (some s.params) s.nparams (some name)).1.isSome = true) :
    virTypedParamsAddGen s name f = (-1, s, [errAlreadySet name]) := by
  obtain ⟨p, hp⟩ := Option.isSome_iff_exists.mp h
  simp [virTypedParamsAddGen, hp]

lemma addGen_none_eq (s : VirTypedParamsBuf) (name : String)
    (f : VirTypedParameter → Int × VirTypedParameter × List VirError)
    (hget : (virTypedParamsGet (some s.params) s.nparams (some name)).1 = none) :
    virTypedParamsAddGen s name f =
      (if (f (resSlot s)).1 < 0 then
        (-1, ⟨(virResizeN s.params s.maxparams s.nparams).1.set s.nparams (f (resSlot s)).2.1,
              s.nparams, (virResizeN s.params s.maxparams s.nparams).2⟩,
         (f (resSlot s)).2.2)
      else
        (0, ⟨(virResizeN s.params s.maxparams s.nparams).1.set s.nparams (f (resSlot s)).2.1,
             s.nparams + 1, (virResizeN s.params s.maxparams s.nparams).2⟩,
         (f (resSlot s)).2.2)) := by
  simp only [virTypedParamsAddGen, hget, resSlot]

lemma addGen_fst_zero (s : VirTypedParamsBuf) (name : String)
    (f : VirTypedParameter → Int × VirTypedParameter × List VirError)
    (h : (virTypedParamsAddGen s name f).1 = 0) :
    (virTypedParamsGet (some s.params) s.nparams (some name)).1 = none ∧
      ¬((f (resSlot s)).1 < 0) := by
  cases hget : (virTypedParamsGet (some s.params) s.nparams (some name)).1 with
  | some p =>
    rw [addGen_dup s name f (by simp [hget])] at h
    simp at h
  | none =>
    refine ⟨rfl, ?_⟩
    intro ha
    rw [addGen_none_eq s name f hget, if_pos ha] at h
    simp at h

lemma addGen_commit (s : VirTypedParamsBuf) (name : String)
    (f : VirTypedParameter → Int × VirTypedParameter × List VirError)
    (hget : (virTypedParamsGet (some s.params) s.nparams (some name)).1 = none)
    (hret : ¬((f (resSlot s)).1 < 0)) :
    virTypedParamsAddGen s name f =
      (0, ⟨(virResizeN s.params s.maxparams s.nparams).1.set s.nparams (f (resSlot s)).2.1,
           s.nparams + 1, (virResizeN s.params s.maxparams s.nparams).2⟩,
       (f (resSlot s)).2.2) := by
  rw [addGen_none_eq s name f hget, if_neg hret]

lemma get_after_commit (s : VirTypedParamsBuf) (name : String)
    (slot : VirTypedParameter) (hWF : wellFormed s)
    (hget : (virTypedParamsGet (some s.params) s.nparams (some name)).1 = none)
    (hfield : slot.field = name) :
    (virTypedParamsGet
      (some ((virResizeN s.params s.maxparams s.nparams).1.set s.nparams slot))
      (s.nparams + 1) (some name)).1 = some slot := by
  obtain ⟨htake, hlt⟩ := virResizeN_spec s.params s.maxparams s.nparams hWF.1 hWF.2
  have hset := take_set_succ (virResizeN s.params s.maxparams s.nparams).1 s.nparams slot hlt
  simp only [virTypedParamsGet] at hget ⊢
  rw [hset, htake]
  rw [find?_append_none _ _ _ hget]
  simp [List.find?, hfield]

lemma assign_int_eq (p : VirTypedParameter) (name : String) (v : Int)
    (hfit : virStrcpyStaticOk name = true) :
    virTypedParameterAssign p name VIR_TYPED_PARAM_INT (.aInt v) =
      (0, { p with
             field := name, type := VIR_TYPED_PARAM_INT,
             value := { p.value with i := v } }, []) := by
  simp [virTypedParameterAssign, hfit, VIR_TYPED_PARAM_INT, VIR_TYPED_PARAM_UINT, VIR_TYPED_PARAM_LLONG,
    VIR_TYPED_PARAM_ULLONG, VIR_TYPED_PARAM_DOUBLE, VIR_TYPED_PARAM_BOOLEAN,
    VIR_TYPED_PARAM_STRING,
    VirTypedArg.argInt, VirTypedArg.argUInt, VirTypedArg.argLLong,
    VirTypedArg.argULLong, VirTypedArg.argDouble, VirTypedArg.argStr]
lemma assign_uint_eq (p : VirTypedParameter) (name : String) (v : Nat)
    (hfit : virStrcpyStaticOk name = true) :
    virTypedParameterAssign p name VIR_TYPED_PARAM_UINT (.aUInt v) =
      (0, { p with
             field := name, type := VIR_TYPED_PARAM_UINT,
             value := { p.value with ui := v } }, []) := by
  simp [virTypedParameterAssign, hfit, VIR_TYPED_PARAM_INT, VIR_TYPED_PARAM_UINT, VIR_TYPED_PARAM_LLONG,
    VIR_TYPED_PARAM_ULLONG, VIR_TYPED_PARAM_DOUBLE, VIR_TYPED_PARAM_BOOLEAN,
    VIR_TYPED_PARAM_STRING,
    VirTypedArg.argInt, VirTypedArg.argUInt, VirTypedArg.argLLong,
    VirTypedArg.argULLong, VirTypedArg.argDouble, VirTypedArg.argStr]
lemma assign_llong_eq (p : VirTypedParameter) (name : String) (v : Int)
    (hfit : virStrcpyStaticOk name = true) :
    virTypedParameterAssign p name VIR_TYPED_PARAM_LLONG (.aLLong v) =
      (0, { p with
             field := name, type := VIR_TYPED_PARAM_LLONG,
             value := { p.value with l := v } }, []) := by
  simp [virTypedParameterAssign, hfit, VIR_TYPED_PARAM_INT, VIR_TYPED_PARAM_UINT, VIR_TYPED_PARAM_LLONG,
    VIR_TYPED_PARAM_ULLONG, VIR_TYPED_PARAM_DOUBLE, VIR_TYPED_PARAM_BOOLEAN,
    VIR_TYPED_PARAM_STRING,
    VirTypedArg.argInt, VirTypedArg.argUInt, VirTypedArg.argLLong,
    VirTypedArg.argULLong, VirTypedArg.argDouble, VirTypedArg.argStr]
lemma assign_ullong_eq (p : VirTypedParameter) (name : String) (v : Nat)
    (hfit : virStrcpyStaticOk name = true) :
    virTypedParameterAssign p name VIR_TYPED_PARAM_ULLONG (.aULLong v) =
      (0, { p with
             field := name, type := VIR_TYPED_PARAM_ULLONG,
             value := { p.value with ul := v } }, []) := by
  simp [virTypedParameterAssign, hfit, VIR_TYPED_PARAM_INT, VIR_TYPED_PARAM_UINT, VIR_TYPED_PARAM_LLONG,
    VIR_TYPED_PARAM_ULLONG, VIR_TYPED_PARAM_DOUBLE, VIR_TYPED_PARAM_BOOLEAN,
    VIR_TYPED_PARAM_STRING,
    VirTypedArg.argInt, VirTypedArg.argUInt, VirTypedArg.argLLong,
    VirTypedArg.argULLong, VirTypedArg.argDouble, VirTypedArg.argStr]
lemma assign_double_eq (p : VirTypedParameter) (name : String) (v : Nat)
    (hfit : virStrcpyStaticOk name = true) :
    virTypedParameterAssign p name VIR_TYPED_PARAM_DOUBLE (.aDouble v) =
      (0, { p with
             field := name, type := VIR_TYPED_PARAM_DOUBLE,
             value := { p.value with d := v } }, []) := by
  simp [virTypedParameterAssign, hfit, VIR_TYPED_PARAM_INT, VIR_TYPED_PARAM_UINT, VIR_TYPED_PARAM_LLONG,
    VIR_TYPED_PARAM_ULLONG, VIR_TYPED_PARAM_DOUBLE, VIR_TYPED_PARAM_BOOLEAN,
    VIR_TYPED_PARAM_STRING,
    VirTypedArg.argInt, VirTypedArg.argUInt, VirTypedArg.argLLong,
    VirTypedArg.argULLong, VirTypedArg.argDouble, VirTypedArg.argStr]
lemma assign_boolean_eq (p : VirTypedParameter) (name : String) (v : Int)
    (hfit : virStrcpyStaticOk name = true) :
    virTypedParameterAssign p name VIR_TYPED_PARAM_BOOLEAN (.aBoolean v) =
      (0, { p with
             field := name, type := VIR_TYPED_PARAM_BOOLEAN,
             value := { p.value with b := if v = 0 then false else true } }, []) := by
  simp [virTypedParameterAssign, hfit, VIR_TYPED_PARAM_INT, VIR_TYPED_PARAM_UINT, VIR_TYPED_PARAM_LLONG,
    VIR_TYPED_PARAM_ULLONG, VIR_TYPED_PARAM_DOUBLE, VIR_TYPED_PARAM_BOOLEAN,
    VIR_TYPED_PARAM_STRING,
    VirTypedArg.argInt, VirTypedArg.argUInt, VirTypedArg.argLLong,
    VirTypedArg.argULLong, VirTypedArg.argDouble, VirTypedArg.argStr]
lemma assign_string_eq (p : VirTypedParameter) (name : String) (v : Option String)
    (hfit : virStrcpyStaticOk name = true) :
    virTypedParameterAssign p name VIR_TYPED_PARAM_STRING (.aString v) =
      (0, { p with
             field := name, type := VIR_TYPED_PARAM_STRING,
             value := { p.value with s := some (v.getD "") } }, []) := by
  simp [virTypedParameterAssign, hfit, VIR_TYPED_PARAM_INT, VIR_TYPED_PARAM_UINT, VIR_TYPED_PARAM_LLONG,
    VIR_TYPED_PARAM_ULLONG, VIR_TYPED_PARAM_DOUBLE, VIR_TYPED_PARAM_BOOLEAN,
    VIR_TYPED_PARAM_STRING,
    VirTypedArg.argInt, VirTypedArg.argUInt, VirTypedArg.argLLong,
    VirTypedArg.argULLong, VirTypedArg.argDouble, VirTypedArg.argStr]

lemma assign_fit (p : VirTypedParameter) (name : String) (t : Int) (a : VirTypedArg)
    (h : ¬((virTypedParameterAssign p name t a).1 < 0)) :
    virStrcpyStaticOk name = true := by
  by_cases hf : virStrcpyStaticOk name = true
  · exact hf
  · exfalso
    apply h
    simp [virTypedParameterAssign, hf]

lemma assignFromStr_fit (p : VirTypedParameter) (name : String) (t : Int) (v : String)
    (h : ¬((virTypedParameterAssignFromStr p name t (some v)).1 < 0)) :
    virStrcpyStaticOk name = true := by
  by_cases hf : virStrcpyStaticOk name = true
  · exact hf
  · exfalso
    apply h
    simp [virTypedParameterAssignFromStr, hf]

lemma getInt_mismatch (params : List VirTypedParameter) (nparams : Nat)
    (name : String) (hasOut : Bool) (slot : VirTypedParameter)
    (hfind : (virTypedParamsGet (some params) nparams (some name)).1 = some slot)
    (hty : slot.type ≠ VIR_TYPED_PARAM_INT) :
    virTypedParamsGetInt params nparams name hasOut =
      (-1, none, [errTypeMismatchGet VIR_TYPED_PARAM_INT name slot.type]) := by
  simp [virTypedParamsGetInt, hfind, hty]

lemma getInt_found (params : List VirTypedParameter) (nparams : Nat)
    (name : String) (hasOut : Bool) (slot : VirTypedParameter)
    (hfind : (virTypedParamsGet (some params) nparams (some name)).1 = some slot)
    (hty : slot.type = VIR_TYPED_PARAM_INT) :
    virTypedParamsGetInt params nparams name hasOut =
      (1, if hasOut then some slot.value.i else none, []) := by
  simp [virTypedParamsGetInt, hfind, hty]

lemma getUInt_mismatch (params : List VirTypedParameter) (nparams : Nat)
    (name : String) (hasOut : Bool) (slot : VirTypedParameter)
    (hfind : (virTypedParamsGet (some params) nparams (some name)).1 = some slot)
    (hty : slot.type ≠ VIR_TYPED_PARAM_UINT) :
    virTypedParamsGetUInt params nparams name hasOut =
      (-1, none, [errTypeMismatchGet VIR_TYPED_PARAM_UINT name slot.type]) := by
  simp [virTypedParamsGetUInt, hfind, hty]

lemma getUInt_found (params : List VirTypedParameter) (nparams : Nat)
    (name : String) (hasOut : Bool) (slot : VirTypedParameter)
    (hfind : (virTypedParamsGet (some params) nparams (some name)).1 = some slot)
    (hty : slot.type = VIR_TYPED_PARAM_UINT) :
    virTypedParamsGetUInt params nparams name hasOut =
      (1, if hasOut then some slot.value.ui else none, []) := by
  simp [virTypedParamsGetUInt, hfind, hty]

lemma getLLong_mismatch (params : List VirTypedParameter) (nparams : Nat)
    (name : String) (hasOut : Bool) (slot : VirTypedParameter)
    (hfind : (virTypedParamsGet (some params) nparams (some name)).1 = some slot)
    (hty : slot.type ≠ VIR_TYPED_PARAM_LLONG) :
    virTypedParamsGetLLong params nparams name hasOut =
      (-1, none, [errTypeMismatchGet VIR_TYPED_PARAM_LLONG name slot.type]) := by
  simp [virTypedParamsGetLLong, hfind, hty]

lemma getLLong_found (params : List VirTypedParameter) (nparams : Nat)
    (name : String) (hasOut : Bool) (slot : VirTypedParameter)
    (hfind : (virTypedParamsGet (some params) nparams (some name)).1 = some slot)
    (hty : slot.type = VIR_TYPED_PARAM_LLONG) :
    virTypedParamsGetLLong params nparams name hasOut =
      (1, if hasOut then some slot.value.l else none, []) := by
  simp [virTypedParamsGetLLong, hfind, hty]

lemma getULLong_mismatch (params : List VirTypedParameter) (nparams : Nat)
    (name : String) (hasOut : Bool) (slot : VirTypedParameter)
    (hfind : (virTypedParamsGet (some params) nparams (some name)).1 = some slot)
    (hty : slot.type ≠ VIR_TYPED_PARAM_ULLONG) :
    virTypedParamsGetULLong params nparams name hasOut =
      (-1, none, [errTypeMismatchGet VIR_TYPED_PARAM_ULLONG name slot.type]) := by
  simp [virTypedParamsGetULLong, hfind, hty]

lemma getULLong_found (params : List VirTypedParameter) (nparams : Nat)
    (name : String) (hasOut : Bool) (slot : VirTypedParameter)
    (hfind : (virTypedParamsGet (some params) nparams (some name)).1 = some slot)
    (hty : slot.type = VIR_TYPED_PARAM_ULLONG) :
    virTypedParamsGetULLong params nparams name hasOut =
      (1, if hasOut then some slot.value.ul else none, []) := by
  simp [virTypedParamsGetULLong, hfind, hty]

lemma getDouble_mismatch (params : List VirTypedParameter) (nparams : Nat)
    (name : String) (hasOut : Bool) (slot : VirTypedParameter)
    (hfind : (virTypedParamsGet (some params) nparams (some name)).1 = some slot)
    (hty : slot.type ≠ VIR_TYPED_PARAM_DOUBLE) :
    virTypedParamsGetDouble params nparams name hasOut =
      (-1, none, [errTypeMismatchGet VIR_TYPED_PARAM_DOUBLE name slot.type]) := by
  simp [virTypedParamsGetDouble, hfind, hty]

lemma getDouble_found (params : List VirTypedParameter) (nparams : Nat)
    (name : String) (hasOut : Bool) (slot : VirTypedParameter)
    (hfind : (virTypedParamsGet (some params) nparams (some name)).1 = some slot)
    (hty : slot.type = VIR_TYPED_PARAM_DOUBLE) :
    virTypedParamsGetDouble params nparams name hasOut =
      (1, if hasOut then some slot.value.d else none, []) := by
  simp [virTypedParamsGetDouble, hfind, hty]

lemma getBoolean_mismatch (params : List VirTypedParameter) (nparams : Nat)
    (name : String) (hasOut : Bool) (slot : VirTypedParameter)
    (hfind : (virTypedParamsGet (some params) nparams (some name)).1 = some slot)
    (hty : slot.type ≠ VIR_TYPED_PARAM_BOOLEAN) :
    virTypedParamsGetBoolean params nparams name hasOut =
      (-1, none, [errTypeMismatchGet VIR_TYPED_PARAM_BOOLEAN name slot.type]) := by
  simp [virTypedParamsGetBoolean, hfind, hty]

lemma getBoolean_found (params : List VirTypedParameter) (nparams : Nat)
    (name : String) (hasOut : Bool) (slot : VirTypedParameter)
    (hfind : (virTypedParamsGet (some params) nparams (some name)).1 = some slot)
    (hty : slot.type = VIR_TYPED_PARAM_BOOLEAN) :
    virTypedParamsGetBoolean params nparams name hasOut =
      (1, if hasOut then some (if slot.value.b then 1 else 0) else none, []) := by
  simp [virTypedParamsGetBoolean, hfind, hty]

lemma getString_mismatch (params : List VirTypedParameter) (nparams : Nat)
    (name : String) (hasOut : Bool) (slot : VirTypedParameter)
    (hfind : (virTypedParamsGet (some params) nparams (some name)).1 = some slot)
    (hty : slot.type ≠ VIR_TYPED_PARAM_STRING) :
    virTypedParamsGetString params nparams name hasOut =
      (-1, none, [errTypeMismatchGet VIR_TYPED_PARAM_STRING name slot.type]) := by
  simp [virTypedParamsGetString, hfind, hty]

lemma getString_found (params : List VirTypedParameter) (nparams : Nat)
    (name : String) (hasOut : Bool) (slot : VirTypedParameter)
    (hfind : (virTypedParamsGet (some params) nparams (some name)).1 = some slot)
    (hty : slot.type = VIR_TYPED_PARAM_STRING) :
    virTypedParamsGetString params nparams name hasOut =
      (1, if hasOut then slot.value.s else none, []) := by
  simp [virTypedParamsGetString, hfind, hty]

lemma addInt_success (s : VirTypedParamsBuf) (name : String) (v : Int)
    (hWF : wellFormed s)
    (h : (virTypedParamsAddInt s name v).1 = 0) :
    (virTypedParamsAddInt s name v).2.1.nparams = s.nparams + 1 ∧
    (virTypedParamsGet (some (virTypedParamsAddInt s name v).2.1.params)
        ((virTypedParamsAddInt s name v).2.1.nparams) (some name)).1 =
      some { resSlot s with
              field := name, type := VIR_TYPED_PARAM_INT,
              value := { (resSlot s).value with i := v } } := by
  obtain ⟨hget, hret⟩ := addGen_fst_zero s name _ h
  have hfit := assign_fit _ _ _ _ hret
  have hassign := assign_int_eq (resSlot s) name v hfit
  have heq : virTypedParamsAddInt s name v =
      (0, ⟨(virResizeN s.params s.maxparams s.nparams).1.set s.nparams
            { resSlot s with
               field := name, type := VIR_TYPED_PARAM_INT,
               value := { (resSlot s).value with i := v } },
           s.nparams + 1, (virResizeN s.params s.maxparams s.nparams).2⟩, []) := by
    show virTypedParamsAddGen s name _ = _
    rw [addGen_commit s name _ hget hret]
    simp only [hassign]
  refine ⟨?_, ?_⟩ <;> rw [heq]
  exact get_after_commit s name _ hWF hget rfl

lemma addUInt_success (s : VirTypedParamsBuf) (name : String) (v : Nat)
    (hWF : wellFormed s)
    (h : (virTypedParamsAddUInt s name v).1 = 0) :
    (virTypedParamsAddUInt s name v).2.1.nparams = s.nparams + 1 ∧
    (virTypedParamsGet (some (virTypedParamsAddUInt s name v).2.1.params)
        ((virTypedParamsAddUInt s name v).2.1.nparams) (some name)).1 =
      some { resSlot s with
              field := name, type := VIR_TYPED_PARAM_UINT,
              value := { (resSlot s).value with ui := v } } := by
  obtain ⟨hget, hret⟩ := addGen_fst_zero s name _ h
  have hfit := assign_fit _ _ _ _ hret
  have hassign := assign_uint_eq (resSlot s) name v hfit
  have heq : virTypedParamsAddUInt s name v =
      (0, ⟨(virResizeN s.params s.maxparams s.nparams).1.set s.nparams
            { resSlot s with
               field := name, type := VIR_TYPED_PARAM_UINT,
               value := { (resSlot s).value with ui := v } },
           s.nparams + 1, (virResizeN s.params s.maxparams s.nparams).2⟩, []) := by
    show virTypedParamsAddGen s name _ = _
    rw [addGen_commit s name _ hget hret]
    simp only [hassign]
  refine ⟨?_, ?_⟩ <;> rw [heq]
  exact get_after_commit s name _ hWF hget rfl

lemma addLLong_success (s : VirTypedParamsBuf) (name : String) (v : Int)
    (hWF : wellFormed s)
    (h : (virTypedParamsAddLLong s name v).1 = 0) :
    (virTypedParamsAddLLong s name v).2.1.nparams = s.nparams + 1 ∧
    (virTypedParamsGet (some (virTypedParamsAddLLong s name v).2.1.params)
        ((virTypedParamsAddLLong s name v).2.1.nparams) (some name)).1 =
      some { resSlot s with
              field := name, type := VIR_TYPED_PARAM_LLONG,
              value := { (resSlot s).value with l := v } } := by
  obtain ⟨hget, hret⟩ := addGen_fst_zero s name _ h
  have hfit := assign_fit _ _ _ _ hret
  have hassign := assign_llong_eq (resSlot s) name v hfit
  have heq : virTypedParamsAddLLong s name v =
      (0, ⟨(virResizeN s.params s.maxparams s.nparams).1.set s.nparams
            { resSlot s with
               field := name, type := VIR_TYPED_PARAM_LLONG,
               value := { (resSlot s).value with l := v } },
           s.nparams + 1, (virResizeN s.params s.maxparams s.nparams).2⟩, []) := by
    show virTypedParamsAddGen s name _ = _
    rw [addGen_commit s name _ hget hret]
    simp only [hassign]
  refine ⟨?_, ?_⟩ <;> rw [heq]
  exact get_after_commit s name _ hWF hget rfl

lemma addULLong_success (s : VirTypedParamsBuf) (name : String) (v : Nat)
    (hWF : wellFormed s)
    (h : (virTypedParamsAddULLong s name v).1 = 0) :
    (virTypedParamsAddULLong s name v).2.1.nparams = s.nparams + 1 ∧
    (virTypedParamsGet (some (virTypedParamsAddULLong s name v).2.1.params)
        ((virTypedParamsAddULLong s name v).2.1.nparams) (some name)).1 =
      some { resSlot s with
              field := name, type := VIR_TYPED_PARAM_ULLONG,
              value := { (resSlot s).value with ul := v } } := by
  obtain ⟨hget, hret⟩ := addGen_fst_zero s name _ h
  have hfit := assign_fit _ _ _ _ hret
  have hassign := assign_ullong_eq (resSlot s) name v hfit
  have heq : virTypedParamsAddULLong s name v =
      (0, ⟨(virResizeN s.params s.maxparams s.nparams).1.set s.nparams
            { resSlot s with
               field := name, type := VIR_TYPED_PARAM_ULLONG,
               value := { (resSlot s).value with ul := v } },
           s.nparams + 1, (virResizeN s.params s.maxparams s.nparams).2⟩, []) := by
    show virTypedParamsAddGen s name _ = _
    rw [addGen_commit s name _ hget hret]
    simp only [hassign]
  refine ⟨?_, ?_⟩ <;> rw [heq]
  exact get_after_commit s name _ hWF hget rfl

lemma addDouble_success (s : VirTypedParamsBuf) (name : String) (v : Nat)
    (hWF : wellFormed s)
    (h : (virTypedParamsAddDouble s name v).1 = 0) :
    (virTypedParamsAddDouble s name v).2.1.nparams = s.nparams + 1 ∧
    (virTypedParamsGet (some (virTypedParamsAddDouble s name v).2.1.params)
        ((virTypedParamsAddDouble s name v).2.1.nparams) (some name)).1 =
      some { resSlot s with
              field := name, type := VIR_TYPED_PARAM_DOUBLE,
              value := { (resSlot s).value with d := v } } := by
  obtain ⟨hget, hret⟩ := addGen_fst_zero s name _ h
  have hfit := assign_fit _ _ _ _ hret
  have hassign := assign_double_eq (resSlot s) name v hfit
  have heq : virTypedParamsAddDouble s name v =
      (0, ⟨(virResizeN s.params s.maxparams s.nparams).1.set s.nparams
            { resSlot s with
               field := name, type := VIR_TYPED_PARAM_DOUBLE,
               value := { (resSlot s).value with d := v } },
           s.nparams + 1, (virResizeN s.params s.maxparams s.nparams).2⟩, []) := by
    show virTypedParamsAddGen s name _ = _
    rw [addGen_commit s name _ hget hret]
    simp only [hassign]
  refine ⟨?_, ?_⟩ <;> rw [heq]
  exact get_after_commit s name _ hWF hget rfl

lemma addBoolean_success (s : VirTypedParamsBuf) (name : String) (v : Int)
    (hWF : wellFormed s)
    (h : (virTypedParamsAddBoolean s name v).1 = 0) :
    (virTypedParamsAddBoolean s name v).2.1.nparams = s.nparams + 1 ∧
    (virTypedParamsGet (some (virTypedParamsAddBoolean s name v).2.1.params)
        ((virTypedParamsAddBoolean s name v).2.1.nparams) (some name)).1 =
      some { resSlot s with
              field := name, type := VIR_TYPED_PARAM_BOOLEAN,
              value := { (resSlot s).value with b := if v = 0 then false else true } } := by
  obtain ⟨hget, hret⟩ := addGen_fst_zero s name _ h
  have hfit := assign_fit _ _ _ _ hret
  have hassign := assign_boolean_eq (resSlot s) name v hfit
  have heq : virTypedParamsAddBoolean s name v =
      (0, ⟨(virResizeN s.params s.maxparams s.nparams).1.set s.nparams
            { resSlot s with
               field := name, type := VIR_TYPED_PARAM_BOOLEAN,
               value := { (resSlot s).value with b := if v = 0 then false else true } },
           s.nparams + 1, (virResizeN s.params s.maxparams s.nparams).2⟩, []) := by
    show virTypedParamsAddGen s name _ = _
    rw [addGen_commit s name _ hget hret]
    simp only [hassign]
  refine ⟨?_, ?_⟩ <;> rw [heq]
  exact get_after_commit s name _ hWF hget rfl

lemma addString_success (s : VirTypedParamsBuf) (name : String) (v : Option String)
    (hWF : wellFormed s)
    (h : (virTypedParamsAddString s name v).1 = 0) :
    (virTypedParamsAddString s name v).2.1.nparams = s.nparams + 1 ∧
    (virTypedParamsGet (some (virTypedParamsAddString s name v).2.1.params)
        ((virTypedParamsAddString s name v).2.1.nparams) (some name)).1 =
      some { resSlot s with
              field := name, type := VIR_TYPED_PARAM_STRING,
              value := { (resSlot s).value with s := some (v.getD "") } } := by
  obtain ⟨hget, hret⟩ := addGen_fst_zero s name _ h
  have hfit := assign_fit _ _ _ _ hret
  have hassign := assign_string_eq (resSlot s) name v hfit
  have heq : virTypedParamsAddString s name v =
      (0, ⟨(virResizeN s.params s.maxparams s.nparams).1.set s.nparams
            { resSlot s with
               field := name, type := VIR_TYPED_PARAM_STRING,
               value := { (resSlot s).value with s := some (v.getD "") } },
           s.nparams + 1, (virResizeN s.params s.maxparams s.nparams).2⟩, []) := by
    show virTypedParamsAddGen s name _ = _
    rw [addGen_commit s name _ hget hret]
    simp only [hassign]
  refine ⟨?_, ?_⟩ <;> rw [heq]
  exact get_after_commit s name _ hWF hget rfl

/-- A one-slot collection already holding a parameter called "n". -/
def dupBuf : VirTypedParamsBuf := ⟨[mkP "n" VIR_TYPED_PARAM_INT], 1, 1⟩

/-- C3: when a parameter with the given name already exists in the
collection, every typed appender and add-from-text return -1 with the
invalid-argument "already set" error and the collection is unchanged —
count, capacity and every entry are exactly as before the call. -/
theorem add_existing_name_rejected_unchanged (s : VirTypedParamsBuf) (name : String)
    (hdup : (virTypedParamsGet (some s.params) s.nparams (some name)).1.isSome = true) :
    (∀ v : Int, virTypedParamsAddInt s name v = (-1, s, [errAlreadySet name])) ∧
    (∀ v : Nat, virTypedParamsAddUInt s name v = (-1, s, [errAlreadySet name])) ∧
    (∀ v : Int, virTypedParamsAddLLong s name v = (-1, s, [errAlreadySet name])) ∧
    (∀ v : Nat, virTypedParamsAddULLong s name v = (-1, s, [errAlreadySet name])) ∧
    (∀ v : Nat, virTypedParamsAddDouble s name v = (-1, s, [errAlreadySet name])) ∧
    (∀ v : Int, virTypedParamsAddBoolean s name v = (-1, s, [errAlreadySet name])) ∧
    (∀ v : Option String, virTypedParamsAddString s name v = (-1, s, [errAlreadySet name])) ∧
    (∀ (t : Int) (v : Option String),
      virTypedParamsAddFromString s name t v = (-1, s, [errAlreadySet name])) :=
  ⟨fun v => addGen_dup s name _ hdup, fun v => addGen_dup s name _ hdup, fun v => addGen_dup s name _ hdup, fun v => addGen_dup s name _ hdup, fun v => addGen_dup s name _ hdup, fun v => addGen_dup s name _ hdup, fun v => addGen_dup s name _ hdup, fun t v => addGen_dup s name _ hdup⟩

/-- Witness for C3 at a concrete one-element collection. -/
theorem add_existing_name_rejected_unchanged_witness :
    virTypedParamsAddInt dupBuf "n" 2 = (-1, dupBuf, [errAlreadySet "n"]) ∧
    virTypedParamsAddFromString dupBuf "n" VIR_TYPED_PARAM_UINT (some "3") =
      (-1, dupBuf, [errAlreadySet "n"]) :=
  ⟨(add_existing_name_rejected_unchanged dupBuf "n" (by decide)).1 2,
   (add_existing_name_rejected_unchanged dupBuf "n"
      (by decide)).2.2.2.2.2.2.2 VIR_TYPED_PARAM_UINT (some "3")⟩

/-- C4 (amended): after a successful add of a fresh name, the getter of the
same kind returns 1 and yields exactly the stored value — bitwise for the
int, uint, llong, ullong and double kinds; normalized to 0/1 by !! for the
boolean kind (so it equals the input only when the input is 0 or 1); the
same bytes for the string kind — and the count has increased by exactly
one. -/
theorem add_get_roundtrip_per_kind (s : VirTypedParamsBuf) (name : String)
    (hWF : wellFormed s) :
    (∀ v : Int, (virTypedParamsAddInt s name v).1 = 0 →
      virTypedParamsGetInt (virTypedParamsAddInt s name v).2.1.params
          (virTypedParamsAddInt s name v).2.1.nparams name true = (1, some v, []) ∧
      (virTypedParamsAddInt s name v).2.1.nparams = s.nparams + 1) ∧
    (∀ v : Nat, (virTypedParamsAddUInt s name v).1 = 0 →
      virTypedParamsGetUInt (virTypedParamsAddUInt s name v).2.1.params
          (virTypedParamsAddUInt s name v).2.1.nparams name true = (1, some v, []) ∧
      (virTypedParamsAddUInt s name v).2.1.nparams = s.nparams + 1) ∧
    (∀ v : Int, (virTypedParamsAddLLong s name v).1 = 0 →
      virTypedParamsGetLLong (virTypedParamsAddLLong s name v).2.1.params
          (virTypedParamsAddLLong s name v).2.1.nparams name true = (1, some v, []) ∧
      (virTypedParamsAddLLong s name v).2.1.nparams = s.nparams + 1) ∧
    (∀ v : Nat, (virTypedParamsAddULLong s name v).1 = 0 →
      virTypedParamsGetULLong (virTypedParamsAddULLong s name v).2.1.params
          (virTypedParamsAddULLong s name v).2.1.nparams name true = (1, some v, []) ∧
      (virTypedParamsAddULLong s name v).2.1.nparams = s.nparams + 1) ∧
    (∀ v : Nat, (virTypedParamsAddDouble s name v).1 = 0 →
      virTypedParamsGetDouble (virTypedParamsAddDouble s name v).2.1.params
          (virTypedParamsAddDouble s name v).2.1.nparams name true = (1, some v, []) ∧
      (virTypedParamsAddDouble s name v).2.1.nparams = s.nparams + 1) ∧
    (∀ v : Int, (virTypedParamsAddBoolean s name v).1 = 0 →
      virTypedParamsGetBoolean (virTypedParamsAddBoolean s name v).2.1.params
          (virTypedParamsAddBoolean s name v).2.1.nparams name true = (1, some (if v = 0 then 0 else 1), []) ∧
      (virTypedParamsAddBoolean s name v).2.1.nparams = s.nparams + 1) ∧
    (∀ v : String, (virTypedParamsAddString s name (some v)).1 = 0 →
      virTypedParamsGetString (virTypedParamsAddString s name (some v)).2.1.params
          (virTypedParamsAddString s name (some v)).2.1.nparams name true = (1, some v, []) ∧
      (virTypedParamsAddString s name (some v)).2.1.nparams = s.nparams + 1) := by
  refine ⟨?_, ?_, ?_, ?_, ?_, ?_, ?_⟩
  · intro v h
    obtain ⟨hn, hfind⟩ := addInt_success s name v hWF h
    exact ⟨getInt_found _ _ _ _ _ hfind rfl, hn⟩
  · intro v h
    obtain ⟨hn, hfind⟩ := addUInt_success s name v hWF h
    exact ⟨getUInt_found _ _ _ _ _ hfind rfl, hn⟩
  · intro v h
    obtain ⟨hn, hfind⟩ := addLLong_success s name v hWF h
    exact ⟨getLLong_found _ _ _ _ _ hfind rfl, hn⟩
  · intro v h
    obtain ⟨hn, hfind⟩ := addULLong_success s name v hWF h
    exact ⟨getULLong_found _ _ _ _ _ hfind rfl, hn⟩
  · intro v h
    obtain ⟨hn, hfind⟩ := addDouble_success s name v hWF h
    exact ⟨getDouble_found _ _ _ _ _ hfind rfl, hn⟩
  · intro v h
    obtain ⟨hn, hfind⟩ := addBoolean_success s name v hWF h
    refine ⟨?_, hn⟩
    rw [getBoolean_found _ _ _ _ _ hfind rfl]
    by_cases hv : v = 0 <;> simp [hv]
  · intro v h
    obtain ⟨hn, hfind⟩ := addString_success s name (some v) hWF h
    exact ⟨getString_found _ _ _ _ _ hfind rfl, hn⟩

/-- Counterexample to C4 as stated: add_boolean with the value 2 succeeds,
but get_boolean returns 1 (the !!-normalization), not the bitwise value 2. -/
theorem roundtrip_boolean_not_bitwise_cex :
    (virTypedParamsAddBoolean emptyBuf "b" 2).1 = 0 ∧
    virTypedParamsGetBoolean (virTypedParamsAddBoolean emptyBuf "b" 2).2.1.params
        (virTypedParamsAddBoolean emptyBuf "b" 2).2.1.nparams "b" true =
      (1, some 1, []) ∧
    ((1 : Int), some (1 : Int), ([] : List VirError)) ≠ (1, some 2, []) :=
  ⟨by decide, by decide, by decide⟩

/-- Witness for C4 at a concrete input. -/
theorem add_get_roundtrip_per_kind_witness :
    virTypedParamsGetInt (virTypedParamsAddInt emptyBuf "n" 5).2.1.params
        (virTypedParamsAddInt emptyBuf "n" 5).2.1.nparams "n" true = (1, some 5, []) ∧
    (virTypedParamsAddInt emptyBuf "n" 5).2.1.nparams = emptyBuf.nparams + 1 :=
  (add_get_roundtrip_per_kind emptyBuf "n" (by decide)).1 5 (by decide)

/-- C5: after a successful add of kind X under a name, every getter of a
different kind Y on that name returns -1 and reports the invalid-argument
error whose message names both the requested (expected) type and the actual
type, via the fixed tag-to-name mapping. -/
theorem cross_type_get_rejected (s : VirTypedParamsBuf) (name : String)
    (hWF : wellFormed s) :
    (∀ v : Int, (virTypedParamsAddInt s name v).1 = 0 → ∀ hasOut : Bool,
      virTypedParamsGetUInt (virTypedParamsAddInt s name v).2.1.params
          (virTypedParamsAddInt s name v).2.1.nparams name hasOut =
        (-1, none, [errTypeMismatchGet VIR_TYPED_PARAM_UINT name VIR_TYPED_PARAM_INT]) ∧      virTypedParamsGetLLong (virTypedParamsAddInt s name v).2.1.params
          (virTypedParamsAddInt s name v).2.1.nparams name hasOut =
        (-1, none, [errTypeMismatchGet VIR_TYPED_PARAM_LLONG name VIR_TYPED_PARAM_INT]) ∧      virTypedParamsGetULLong (virTypedParamsAddInt s name v).2.1.params
          (virTypedParamsAddInt s name v).2.1.nparams name hasOut =
        (-1, none, [errTypeMismatchGet VIR_TYPED_PARAM_ULLONG name VIR_TYPED_PARAM_INT]) ∧      virTypedParamsGetDouble (virTypedParamsAddInt s name v).2.1.params
          (virTypedParamsAddInt s name v).2.1.nparams name hasOut =
        (-1, none, [errTypeMismatchGet VIR_TYPED_PARAM_DOUBLE name VIR_TYPED_PARAM_INT]) ∧      virTypedParamsGetBoolean (virTypedParamsAddInt s name v).2.1.params
          (virTypedParamsAddInt s name v).2.1.nparams name hasOut =
        (-1, none, [errTypeMismatchGet VIR_TYPED_PARAM_BOOLEAN name VIR_TYPED_PARAM_INT]) ∧      virTypedParamsGetString (virTypedParamsAddInt s name v).2.1.params
          (virTypedParamsAddInt s name v).2.1.nparams name hasOut =
        (-1, none, [errTypeMismatchGet VIR_TYPED_PARAM_STRING name VIR_TYPED_PARAM_INT])) ∧
    (∀ v : Nat, (virTypedParamsAddUInt s name v).1 = 0 → ∀ hasOut : Bool,
      virTypedParamsGetInt (virTypedParamsAddUInt s name v).2.1.params
          (virTypedParamsAddUInt s name v).2.1.nparams name hasOut =
        (-1, none, [errTypeMismatchGet VIR_TYPED_PARAM_INT name VIR_TYPED_PARAM_UINT]) ∧      virTypedParamsGetLLong (virTypedParamsAddUInt s name v).2.1.params
          (virTypedParamsAddUInt s name v).2.1.nparams name hasOut =
        (-1, none, [errTypeMismatchGet VIR_TYPED_PARAM_LLONG name VIR_TYPED_PARAM_UINT]) ∧      virTypedParamsGetULLong (virTypedParamsAddUInt s name v).2.1.params
          (virTypedParamsAddUInt s name v).2.1.nparams name hasOut =
        (-1, none, [errTypeMismatchGet VIR_TYPED_PARAM_ULLONG name VIR_TYPED_PARAM_UINT]) ∧      virTypedParamsGetDouble (virTypedParamsAddUInt s name v).2.1.params
          (virTypedParamsAddUInt s name v).2.1.nparams name hasOut =
        (-1, none, [errTypeMismatchGet VIR_TYPED_PARAM_DOUBLE name VIR_TYPED_PARAM_UINT]) ∧      virTypedParamsGetBoolean (virTypedParamsAddUInt s name v).2.1.params
          (virTypedParamsAddUInt s name v).2.1.nparams name hasOut =
        (-1, none, [errTypeMismatchGet VIR_TYPED_PARAM_BOOLEAN name VIR_TYPED_PARAM_UINT]) ∧      virTypedParamsGetString (virTypedParamsAddUInt s name v).2.1.params
          (virTypedParamsAddUInt s name v).2.1.nparams name hasOut =
        (-1, none, [errTypeMismatchGet VIR_TYPED_PARAM_STRING name VIR_TYPED_PARAM_UINT])) ∧
    (∀ v : Int, (virTypedParamsAddLLong s name v).1 = 0 → ∀ hasOut : Bool,
      virTypedParamsGetInt (virTypedParamsAddLLong s name v).2.1.params
          (virTypedParamsAddLLong s name v).2.1.nparams name hasOut =
        (-1, none, [errTypeMismatchGet VIR_TYPED_PARAM_INT name VIR_TYPED_PARAM_LLONG]) ∧      virTypedParamsGetUInt (virTypedParamsAddLLong s name v).2.1.params
          (virTypedParamsAddLLong s name v).2.1.nparams name hasOut =
        (-1, none, [errTypeMismatchGet VIR_TYPED_PARAM_UINT name VIR_TYPED_PARAM_LLONG]) ∧      virTypedParamsGetULLong (virTypedParamsAddLLong s name v).2.1.params
          (virTypedParamsAddLLong s name v).2.1.nparams name hasOut =
        (-1, none, [errTypeMismatchGet VIR_TYPED_PARAM_ULLONG name VIR_TYPED_PARAM_LLONG]) ∧      virTypedParamsGetDouble (virTypedParamsAddLLong s name v).2.1.params
          (virTypedParamsAddLLong s name v).2.1.nparams name hasOut =
        (-1, none, [errTypeMismatchGet VIR_TYPED_PARAM_DOUBLE name VIR_TYPED_PARAM_LLONG]) ∧      virTypedParamsGetBoolean (virTypedParamsAddLLong s name v).2.1.params
          (virTypedParamsAddLLong s name v).2.1.nparams name hasOut =
        (-1, none, [errTypeMismatchGet VIR_TYPED_PARAM_BOOLEAN name VIR_TYPED_PARAM_LLONG]) ∧      virTypedParamsGetString (virTypedParamsAddLLong s name v).2.1.params
          (virTypedParamsAddLLong s name v).2.1.nparams name hasOut =
        (-1, none, [errTypeMismatchGet VIR_TYPED_PARAM_STRING name VIR_TYPED_PARAM_LLONG])) ∧
    (∀ v : Nat, (virTypedParamsAddULLong s name v).1 = 0 → ∀ hasOut : Bool,
      virTypedParamsGetInt (virTypedParamsAddULLong s name v).2.1.params
          (virTypedParamsAddULLong s name v).2.1.nparams name hasOut =
        (-1, none, [errTypeMismatchGet VIR_TYPED_PARAM_INT name VIR_TYPED_PARAM_ULLONG]) ∧      virTypedParamsGetUInt (virTypedParamsAddULLong s name v).2.1.params
          (virTypedParamsAddULLong s name v).2.1.nparams name hasOut =
        (-1, none, [errTypeMismatchGet VIR_TYPED_PARAM_UINT name VIR_TYPED_PARAM_ULLONG]) ∧      virTypedParamsGetLLong (virTypedParamsAddULLong s name v).2.1.params
          (virTypedParamsAddULLong s name v).2.1.nparams name hasOut =
        (-1, none, [errTypeMismatchGet VIR_TYPED_PARAM_LLONG name VIR_TYPED_PARAM_ULLONG]) ∧      virTypedParamsGetDouble (virTypedParamsAddULLong s name v).2.1.params
          (virTypedParamsAddULLong s name v).2.1.nparams name hasOut =
        (-1, none, [errTypeMismatchGet VIR_TYPED_PARAM_DOUBLE name VIR_TYPED_PARAM_ULLONG]) ∧      virTypedParamsGetBoolean (virTypedParamsAddULLong s name v).2.1.params
          (virTypedParamsAddULLong s name v).2.1.nparams name hasOut =
        (-1, none, [errTypeMismatchGet VIR_TYPED_PARAM_BOOLEAN name VIR_TYPED_PARAM_ULLONG]) ∧      virTypedParamsGetString (virTypedParamsAddULLong s name v).2.1.params
          (virTypedParamsAddULLong s name v).2.1.nparams name hasOut =
        (-1, none, [errTypeMismatchGet VIR_TYPED_PARAM_STRING name VIR_TYPED_PARAM_ULLONG])) ∧
    (∀ v : Nat, (virTypedParamsAddDouble s name v).1 = 0 → ∀ hasOut : Bool,
      virTypedParamsGetInt (virTypedParamsAddDouble s name v).2.1.params
          (virTypedParamsAddDouble s name v).2.1.nparams name hasOut =
        (-1, none, [errTypeMismatchGet VIR_TYPED_PARAM_INT name VIR_TYPED_PARAM_DOUBLE]) ∧      virTypedParamsGetUInt (virTypedParamsAddDouble s name v).2.1.params
          (virTypedParamsAddDouble s name v).2.1.nparams name hasOut =
        (-1, none, [errTypeMismatchGet VIR_TYPED_PARAM_UINT name VIR_TYPED_PARAM_DOUBLE]) ∧      virTypedParamsGetLLong (virTypedParamsAddDouble s name v).2.1.params
          (virTypedParamsAddDouble s name v).2.1.nparams name hasOut =
        (-1, none, [errTypeMismatchGet VIR_TYPED_PARAM_LLONG name VIR_TYPED_PARAM_DOUBLE]) ∧      virTypedParamsGetULLong (virTypedParamsAddDouble s name v).2.1.params
          (virTypedParamsAddDouble s name v).2.1.nparams name hasOut =
        (-1, none, [errTypeMismatchGet VIR_TYPED_PARAM_ULLONG name VIR_TYPED_PARAM_DOUBLE]) ∧      virTypedParamsGetBoolean (virTypedParamsAddDouble s name v).2.1.params
          (virTypedParamsAddDouble s name v).2.1.nparams name hasOut =
        (-1, none, [errTypeMismatchGet VIR_TYPED_PARAM_BOOLEAN name VIR_TYPED_PARAM_DOUBLE]) ∧      virTypedParamsGetString (virTypedParamsAddDouble s name v).2.1.params
          (virTypedParamsAddDouble s name v).2.1.nparams name hasOut =
        (-1, none, [errTypeMismatchGet VIR_TYPED_PARAM_STRING name VIR_TYPED_PARAM_DOUBLE])) ∧
    (∀ v : Int, (virTypedParamsAddBoolean s name v).1 = 0 → ∀ hasOut : Bool,
      virTypedParamsGetInt (virTypedParamsAddBoolean s name v).2.1.params
          (virTypedParamsAddBoolean s name v).2.1.nparams name hasOut =
        (-1, none, [errTypeMismatchGet VIR_TYPED_PARAM_INT name VIR_TYPED_PARAM_BOOLEAN]) ∧      virTypedParamsGetUInt (virTypedParamsAddBoolean s name v).2.1.params
          (virTypedParamsAddBoolean s name v).2.1.nparams name hasOut =
        (-1, none, [errTypeMismatchGet VIR_TYPED_PARAM_UINT name VIR_TYPED_PARAM_BOOLEAN]) ∧      virTypedParamsGetLLong (virTypedParamsAddBoolean s name v).2.1.params
          (virTypedParamsAddBoolean s name v).2.1.nparams name hasOut =
        (-1, none, [errTypeMismatchGet VIR_TYPED_PARAM_LLONG name VIR_TYPED_PARAM_BOOLEAN]) ∧      virTypedParamsGetULLong (virTypedParamsAddBoolean s name v).2.1.params
          (virTypedParamsAddBoolean s name v).2.1.nparams name hasOut =
        (-1, none, [errTypeMismatchGet VIR_TYPED_PARAM_ULLONG name VIR_TYPED_PARAM_BOOLEAN]) ∧      virTypedParamsGetDouble (virTypedParamsAddBoolean s name v).2.1.params
          (virTypedParamsAddBoolean s name v).2.1.nparams name hasOut =
        (-1, none, [errTypeMismatchGet VIR_TYPED_PARAM_DOUBLE name VIR_TYPED_PARAM_BOOLEAN]) ∧      virTypedParamsGetString (virTypedParamsAddBoolean s name v).2.1.params
          (virTypedParamsAddBoolean s name v).2.1.nparams name hasOut =
        (-1, none, [errTypeMismatchGet VIR_TYPED_PARAM_STRING name VIR_TYPED_PARAM_BOOLEAN])) ∧
    (∀ v : String, (virTypedParamsAddString s name (some v)).1 = 0 → ∀ hasOut : Bool,
      virTypedParamsGetInt (virTypedParamsAddString s name (some v)).2.1.params
          (virTypedParamsAddString s name (some v)).2.1.nparams name hasOut =
        (-1, none, [errTypeMismatchGet VIR_TYPED_PARAM_INT name VIR_TYPED_PARAM_STRING]) ∧      virTypedParamsGetUInt (virTypedParamsAddString s name (some v)).2.1.params
          (virTypedParamsAddString s name (some v)).2.1.nparams name hasOut =
        (-1, none, [errTypeMismatchGet VIR_TYPED_PARAM_UINT name VIR_TYPED_PARAM_STRING]) ∧      virTypedParamsGetLLong (virTypedParamsAddString s name (some v)).2.1.params
          (virTypedParamsAddString s name (some v)).2.1.nparams name hasOut =
        (-1, none, [errTypeMismatchGet VIR_TYPED_PARAM_LLONG name VIR_TYPED_PARAM_STRING]) ∧      virTypedParamsGetULLong (virTypedParamsAddString s name (some v)).2.1.params
          (virTypedParamsAddString s name (some v)).2.1.nparams name hasOut =
        (-1, none, [errTypeMismatchGet VIR_TYPED_PARAM_ULLONG name VIR_TYPED_PARAM_STRING]) ∧      virTypedParamsGetDouble (virTypedParamsAddString s name (some v)).2.1.params
          (virTypedParamsAddString s name (some v)).2.1.nparams name hasOut =
        (-1, none, [errTypeMismatchGet VIR_TYPED_PARAM_DOUBLE name VIR_TYPED_PARAM_STRING]) ∧      virTypedParamsGetBoolean (virTypedParamsAddString s name (some v)).2.1.params
          (virTypedParamsAddString s name (some v)).2.1.nparams name hasOut =
        (-1, none, [errTypeMismatchGet VIR_TYPED_PARAM_BOOLEAN name VIR_TYPED_PARAM_STRING])) := by
  refine ⟨?_, ?_, ?_, ?_, ?_, ?_, ?_⟩
  · intro v h hasOut
    obtain ⟨hn, hfind⟩ := addInt_success s name v hWF h
    exact ⟨getUInt_mismatch _ _ _ _ _ hfind (by simp [VIR_TYPED_PARAM_INT, VIR_TYPED_PARAM_UINT, VIR_TYPED_PARAM_LLONG, VIR_TYPED_PARAM_ULLONG, VIR_TYPED_PARAM_DOUBLE, VIR_TYPED_PARAM_BOOLEAN, VIR_TYPED_PARAM_STRING]), getLLong_mismatch _ _ _ _ _ hfind (by simp [VIR_TYPED_PARAM_INT, VIR_TYPED_PARAM_UINT, VIR_TYPED_PARAM_LLONG, VIR_TYPED_PARAM_ULLONG, VIR_TYPED_PARAM_DOUBLE, VIR_TYPED_PARAM_BOOLEAN, VIR_TYPED_PARAM_STRING]), getULLong_mismatch _ _ _ _ _ hfind (by simp [VIR_TYPED_PARAM_INT, VIR_TYPED_PARAM_UINT, VIR_TYPED_PARAM_LLONG, VIR_TYPED_PARAM_ULLONG, VIR_TYPED_PARAM_DOUBLE, VIR_TYPED_PARAM_BOOLEAN, VIR_TYPED_PARAM_STRING]), getDouble_mismatch _ _ _ _ _ hfind (by simp [VIR_TYPED_PARAM_INT, VIR_TYPED_PARAM_UINT, VIR_TYPED_PARAM_LLONG, VIR_TYPED_PARAM_ULLONG, VIR_TYPED_PARAM_DOUBLE, VIR_TYPED_PARAM_BOOLEAN, VIR_TYPED_PARAM_STRING]), getBoolean_mismatch _ _ _ _ _ hfind (by simp [VIR_TYPED_PARAM_INT, VIR_TYPED_PARAM_UINT, VIR_TYPED_PARAM_LLONG, VIR_TYPED_PARAM_ULLONG, VIR_TYPED_PARAM_DOUBLE, VIR_TYPED_PARAM_BOOLEAN, VIR_TYPED_PARAM_STRING]), getString_mismatch _ _ _ _ _ hfind (by simp [VIR_TYPED_PARAM_INT, VIR_TYPED_PARAM_UINT, VIR_TYPED_PARAM_LLONG, VIR_TYPED_PARAM_ULLONG, VIR_TYPED_PARAM_DOUBLE, VIR_TYPED_PARAM_BOOLEAN, VIR_TYPED_PARAM_STRING])⟩
  · intro v h hasOut
    obtain ⟨hn, hfind⟩ := addUInt_success s name v hWF h
    exact ⟨getInt_mismatch _ _ _ _ _ hfind (by simp [VIR_TYPED_PARAM_INT, VIR_TYPED_PARAM_UINT, VIR_TYPED_PARAM_LLONG, VIR_TYPED_PARAM_ULLONG, VIR_TYPED_PARAM_DOUBLE, VIR_TYPED_PARAM_BOOLEAN, VIR_TYPED_PARAM_STRING]), getLLong_mismatch _ _ _ _ _ hfind (by simp [VIR_TYPED_PARAM_INT, VIR_TYPED_PARAM_UINT, VIR_TYPED_PARAM_LLONG, VIR_TYPED_PARAM_ULLONG, VIR_TYPED_PARAM_DOUBLE, VIR_TYPED_PARAM_BOOLEAN, VIR_TYPED_PARAM_STRING]), getULLong_mismatch _ _ _ _ _ hfind (by simp [VIR_TYPED_PARAM_INT, VIR_TYPED_PARAM_UINT, VIR_TYPED_PARAM_LLONG, VIR_TYPED_PARAM_ULLONG, VIR_TYPED_PARAM_DOUBLE, VIR_TYPED_PARAM_BOOLEAN, VIR_TYPED_PARAM_STRING]), getDouble_mismatch _ _ _ _ _ hfind (by simp [VIR_TYPED_PARAM_INT, VIR_TYPED_PARAM_UINT, VIR_TYPED_PARAM_LLONG, VIR_TYPED_PARAM_ULLONG, VIR_TYPED_PARAM_DOUBLE, VIR_TYPED_PARAM_BOOLEAN, VIR_TYPED_PARAM_STRING]), getBoolean_mismatch _ _ _ _ _ hfind (by simp [VIR_TYPED_PARAM_INT, VIR_TYPED_PARAM_UINT, VIR_TYPED_PARAM_LLONG, VIR_TYPED_PARAM_ULLONG, VIR_TYPED_PARAM_DOUBLE, VIR_TYPED_PARAM_BOOLEAN, VIR_TYPED_PARAM_STRING]), getString_mismatch _ _ _ _ _ hfind (by simp [VIR_TYPED_PARAM_INT, VIR_TYPED_PARAM_UINT, VIR_TYPED_PARAM_LLONG, VIR_TYPED_PARAM_ULLONG, VIR_TYPED_PARAM_DOUBLE, VIR_TYPED_PARAM_BOOLEAN, VIR_TYPED_PARAM_STRING])⟩
  · intro v h hasOut
    obtain ⟨hn, hfind⟩ := addLLong_success s name v hWF h
    exact ⟨getInt_mismatch _ _ _ _ _ hfind (by simp [VIR_TYPED_PARAM_INT, VIR_TYPED_PARAM_UINT, VIR_TYPED_PARAM_LLONG, VIR_TYPED_PARAM_ULLONG, VIR_TYPED_PARAM_DOUBLE, VIR_TYPED_PARAM_BOOLEAN, VIR_TYPED_PARAM_STRING]), getUInt_mismatch _ _ _ _ _ hfind (by simp [VIR_TYPED_PARAM_INT, VIR_TYPED_PARAM_UINT, VIR_TYPED_PARAM_LLONG, VIR_TYPED_PARAM_ULLONG, VIR_TYPED_PARAM_DOUBLE, VIR_TYPED_PARAM_BOOLEAN, VIR_TYPED_PARAM_STRING]), getULLong_mismatch _ _ _ _ _ hfind (by simp [VIR_TYPED_PARAM_INT, VIR_TYPED_PARAM_UINT, VIR_TYPED_PARAM_LLONG, VIR_TYPED_PARAM_ULLONG, VIR_TYPED_PARAM_DOUBLE, VIR_TYPED_PARAM_BOOLEAN, VIR_TYPED_PARAM_STRING]), getDouble_mismatch _ _ _ _ _ hfind (by simp [VIR_TYPED_PARAM_INT, VIR_TYPED_PARAM_UINT, VIR_TYPED_PARAM_LLONG, VIR_TYPED_PARAM_ULLONG, VIR_TYPED_PARAM_DOUBLE, VIR_TYPED_PARAM_BOOLEAN, VIR_TYPED_PARAM_STRING]), getBoolean_mismatch _ _ _ _ _ hfind (by simp [VIR_TYPED_PARAM_INT, VIR_TYPED_PARAM_UINT, VIR_TYPED_PARAM_LLONG, VIR_TYPED_PARAM_ULLONG, VIR_TYPED_PARAM_DOUBLE, VIR_TYPED_PARAM_BOOLEAN, VIR_TYPED_PARAM_STRING]), getString_mismatch _ _ _ _ _ hfind (by simp [VIR_TYPED_PARAM_INT, VIR_TYPED_PARAM_UINT, VIR_TYPED_PARAM_LLONG, VIR_TYPED_PARAM_ULLONG, VIR_TYPED_PARAM_DOUBLE, VIR_TYPED_PARAM_BOOLEAN, VIR_TYPED_PARAM_STRING])⟩
  · intro v h hasOut
    obtain ⟨hn, hfind⟩ := addULLong_success s name v hWF h
    exact ⟨getInt_mismatch _ _ _ _ _ hfind (by simp [VIR_TYPED_PARAM_INT, VIR_TYPED_PARAM_UINT, VIR_TYPED_PARAM_LLONG, VIR_TYPED_PARAM_ULLONG, VIR_TYPED_PARAM_DOUBLE, VIR_TYPED_PARAM_BOOLEAN, VIR_TYPED_PARAM_STRING]), getUInt_mismatch _ _ _ _ _ hfind (by simp [VIR_TYPED_PARAM_INT, VIR_TYPED_PARAM_UINT, VIR_TYPED_PARAM_LLONG, VIR_TYPED_PARAM_ULLONG, VIR_TYPED_PARAM_DOUBLE, VIR_TYPED_PARAM_BOOLEAN, VIR_TYPED_PARAM_STRING]), getLLong_mismatch _ _ _ _ _ hfind (by simp [VIR_TYPED_PARAM_INT, VIR_TYPED_PARAM_UINT, VIR_TYPED_PARAM_LLONG, VIR_TYPED_PARAM_ULLONG, VIR_TYPED_PARAM_DOUBLE, VIR_TYPED_PARAM_BOOLEAN, VIR_TYPED_PARAM_STRING]), getDouble_mismatch _ _ _ _ _ hfind (by simp [VIR_TYPED_PARAM_INT, VIR_TYPED_PARAM_UINT, VIR_TYPED_PARAM_LLONG, VIR_TYPED_PARAM_ULLONG, VIR_TYPED_PARAM_DOUBLE, VIR_TYPED_PARAM_BOOLEAN, VIR_TYPED_PARAM_STRING]), getBoolean_mismatch _ _ _ _ _ hfind (by simp [VIR_TYPED_PARAM_INT, VIR_TYPED_PARAM_UINT, VIR_TYPED_PARAM_LLONG, VIR_TYPED_PARAM_ULLONG, VIR_TYPED_PARAM_DOUBLE, VIR_TYPED_PARAM_BOOLEAN, VIR_TYPED_PARAM_STRING]), getString_mismatch _ _ _ _ _ hfind (by simp [VIR_TYPED_PARAM_INT, VIR_TYPED_PARAM_UINT, VIR_TYPED_PARAM_LLONG, VIR_TYPED_PARAM_ULLONG, VIR_TYPED_PARAM_DOUBLE, VIR_TYPED_PARAM_BOOLEAN, VIR_TYPED_PARAM_STRING])⟩
  · intro v h hasOut
    obtain ⟨hn, hfind⟩ := addDouble_success s name v hWF h
    exact ⟨getInt_mismatch _ _ _ _ _ hfind (by simp [VIR_TYPED_PARAM_INT, VIR_TYPED_PARAM_UINT, VIR_TYPED_PARAM_LLONG, VIR_TYPED_PARAM_ULLONG, VIR_TYPED_PARAM_DOUBLE, VIR_TYPED_PARAM_BOOLEAN, VIR_TYPED_PARAM_STRING]), getUInt_mismatch _ _ _ _ _ hfind (by simp [VIR_TYPED_PARAM_INT, VIR_TYPED_PARAM_UINT, VIR_TYPED_PARAM_LLONG, VIR_TYPED_PARAM_ULLONG, VIR_TYPED_PARAM_DOUBLE, VIR_TYPED_PARAM_BOOLEAN, VIR_TYPED_PARAM_STRING]), getLLong_mismatch _ _ _ _ _ hfind (by simp [VIR_TYPED_PARAM_INT, VIR_TYPED_PARAM_UINT, VIR_TYPED_PARAM_LLONG, VIR_TYPED_PARAM_ULLONG, VIR_TYPED_PARAM_DOUBLE, VIR_TYPED_PARAM_BOOLEAN, VIR_TYPED_PARAM_STRING]), getULLong_mismatch _ _ _ _ _ hfind (by simp [VIR_TYPED_PARAM_INT, VIR_TYPED_PARAM_UINT, VIR_TYPED_PARAM_LLONG, VIR_TYPED_PARAM_ULLONG, VIR_TYPED_PARAM_DOUBLE, VIR_TYPED_PARAM_BOOLEAN, VIR_TYPED_PARAM_STRING]), getBoolean_mismatch _ _ _ _ _ hfind (by simp [VIR_TYPED_PARAM_INT, VIR_TYPED_PARAM_UINT, VIR_TYPED_PARAM_LLONG, VIR_TYPED_PARAM_ULLONG, VIR_TYPED_PARAM_DOUBLE, VIR_TYPED_PARAM_BOOLEAN, VIR_TYPED_PARAM_STRING]), getString_mismatch _ _ _ _ _ hfind (by simp [VIR_TYPED_PARAM_INT, VIR_TYPED_PARAM_UINT, VIR_TYPED_PARAM_LLONG, VIR_TYPED_PARAM_ULLONG, VIR_TYPED_PARAM_DOUBLE, VIR_TYPED_PARAM_BOOLEAN, VIR_TYPED_PARAM_STRING])⟩
  · intro v h hasOut
    obtain ⟨hn, hfind⟩ := addBoolean_success s name v hWF h
    exact ⟨getInt_mismatch _ _ _ _ _ hfind (by simp [VIR_TYPED_PARAM_INT, VIR_TYPED_PARAM_UINT, VIR_TYPED_PARAM_LLONG, VIR_TYPED_PARAM_ULLONG, VIR_TYPED_PARAM_DOUBLE, VIR_TYPED_PARAM_BOOLEAN, VIR_TYPED_PARAM_STRING]), getUInt_mismatch _ _ _ _ _ hfind (by simp [VIR_TYPED_PARAM_INT, VIR_TYPED_PARAM_UINT, VIR_TYPED_PARAM_LLONG, VIR_TYPED_PARAM_ULLONG, VIR_TYPED_PARAM_DOUBLE, VIR_TYPED_PARAM_BOOLEAN, VIR_TYPED_PARAM_STRING]), getLLong_mismatch _ _ _ _ _ hfind (by simp [VIR_TYPED_PARAM_INT, VIR_TYPED_PARAM_UINT, VIR_TYPED_PARAM_LLONG, VIR_TYPED_PARAM_ULLONG, VIR_TYPED_PARAM_DOUBLE, VIR_TYPED_PARAM_BOOLEAN, VIR_TYPED_PARAM_STRING]), getULLong_mismatch _ _ _ _ _ hfind (by simp [VIR_TYPED_PARAM_INT, VIR_TYPED_PARAM_UINT, VIR_TYPED_PARAM_LLONG, VIR_TYPED_PARAM_ULLONG, VIR_TYPED_PARAM_DOUBLE, VIR_TYPED_PARAM_BOOLEAN, VIR_TYPED_PARAM_STRING]), getDouble_mismatch _ _ _ _ _ hfind (by simp [VIR_TYPED_PARAM_INT, VIR_TYPED_PARAM_UINT, VIR_TYPED_PARAM_LLONG, VIR_TYPED_PARAM_ULLONG, VIR_TYPED_PARAM_DOUBLE, VIR_TYPED_PARAM_BOOLEAN, VIR_TYPED_PARAM_STRING]), getString_mismatch _ _ _ _ _ hfind (by simp [VIR_TYPED_PARAM_INT, VIR_TYPED_PARAM_UINT, VIR_TYPED_PARAM_LLONG, VIR_TYPED_PARAM_ULLONG, VIR_TYPED_PARAM_DOUBLE, VIR_TYPED_PARAM_BOOLEAN, VIR_TYPED_PARAM_STRING])⟩
  · intro v h hasOut
    obtain ⟨hn, hfind⟩ := addString_success s name (some v) hWF h
    exact ⟨getInt_mismatch _ _ _ _ _ hfind (by simp [VIR_TYPED_PARAM_INT, VIR_TYPED_PARAM_UINT, VIR_TYPED_PARAM_LLONG, VIR_TYPED_PARAM_ULLONG, VIR_TYPED_PARAM_DOUBLE, VIR_TYPED_PARAM_BOOLEAN, VIR_TYPED_PARAM_STRING]), getUInt_mismatch _ _ _ _ _ hfind (by simp [VIR_TYPED_PARAM_INT, VIR_TYPED_PARAM_UINT, VIR_TYPED_PARAM_LLONG, VIR_TYPED_PARAM_ULLONG, VIR_TYPED_PARAM_DOUBLE, VIR_TYPED_PARAM_BOOLEAN, VIR_TYPED_PARAM_STRING]), getLLong_mismatch _ _ _ _ _ hfind (by simp [VIR_TYPED_PARAM_INT, VIR_TYPED_PARAM_UINT, VIR_TYPED_PARAM_LLONG, VIR_TYPED_PARAM_ULLONG, VIR_TYPED_PARAM_DOUBLE, VIR_TYPED_PARAM_BOOLEAN, VIR_TYPED_PARAM_STRING]), getULLong_mismatch _ _ _ _ _ hfind (by simp [VIR_TYPED_PARAM_INT, VIR_TYPED_PARAM_UINT, VIR_TYPED_PARAM_LLONG, VIR_TYPED_PARAM_ULLONG, VIR_TYPED_PARAM_DOUBLE, VIR_TYPED_PARAM_BOOLEAN, VIR_TYPED_PARAM_STRING]), getDouble_mismatch _ _ _ _ _ hfind (by simp [VIR_TYPED_PARAM_INT, VIR_TYPED_PARAM_UINT, VIR_TYPED_PARAM_LLONG, VIR_TYPED_PARAM_ULLONG, VIR_TYPED_PARAM_DOUBLE, VIR_TYPED_PARAM_BOOLEAN, VIR_TYPED_PARAM_STRING]), getBoolean_mismatch _ _ _ _ _ hfind (by simp [VIR_TYPED_PARAM_INT, VIR_TYPED_PARAM_UINT, VIR_TYPED_PARAM_LLONG, VIR_TYPED_PARAM_ULLONG, VIR_TYPED_PARAM_DOUBLE, VIR_TYPED_PARAM_BOOLEAN, VIR_TYPED_PARAM_STRING])⟩

/-- Witness for C5 at a concrete input (int added, all six other getters). -/
theorem cross_type_get_rejected_witness :
    virTypedParamsGetUInt (virTypedParamsAddInt emptyBuf "n" 5).2.1.params
        (virTypedParamsAddInt emptyBuf "n" 5).2.1.nparams "n" true =
      (-1, none, [errTypeMismatchGet VIR_TYPED_PARAM_UINT "n" VIR_TYPED_PARAM_INT]) ∧
    virTypedParamsGetLLong (virTypedParamsAddInt emptyBuf "n" 5).2.1.params
        (virTypedParamsAddInt emptyBuf "n" 5).2.1.nparams "n" true =
      (-1, none, [errTypeMismatchGet VIR_TYPED_PARAM_LLONG "n" VIR_TYPED_PARAM_INT]) ∧
    virTypedParamsGetULLong (virTypedParamsAddInt emptyBuf "n" 5).2.1.params
        (virTypedParamsAddInt emptyBuf "n" 5).2.1.nparams "n" true =
      (-1, none, [errTypeMismatchGet VIR_TYPED_PARAM_ULLONG "n" VIR_TYPED_PARAM_INT]) ∧
    virTypedParamsGetDouble (virTypedParamsAddInt emptyBuf "n" 5).2.1.params
        (virTypedParamsAddInt emptyBuf "n" 5).2.1.nparams "n" true =
      (-1, none, [errTypeMismatchGet VIR_TYPED_PARAM_DOUBLE "n" VIR_TYPED_PARAM_INT]) ∧
    virTypedParamsGetBoolean (virTypedParamsAddInt emptyBuf "n" 5).2.1.params
        (virTypedParamsAddInt emptyBuf "n" 5).2.1.nparams "n" true =
      (-1, none, [errTypeMismatchGet VIR_TYPED_PARAM_BOOLEAN "n" VIR_TYPED_PARAM_INT]) ∧
    virTypedParamsGetString (virTypedParamsAddInt emptyBuf "n" 5).2.1.params
        (virTypedParamsAddInt emptyBuf "n" 5).2.1.nparams "n" true =
      (-1, none, [errTypeMismatchGet VIR_TYPED_PARAM_STRING "n" VIR_TYPED_PARAM_INT]) :=
  (cross_type_get_rejected emptyBuf "n" (by decide)).1 5 (by decide) true

/-- C9: add_string called with a NULL value pointer succeeds, increments the
count, and commits a string-variant parameter whose owned payload is the
empty string (the NULL is passed through to the assignment, which
synthesizes an owned empty string). -/
theorem addString_null_value_empty_string (s : VirTypedParamsBuf) (name : String)
    (hWF : wellFormed s)
    (hget : (virTypedParamsGet (some s.params) s.nparams (some name)).1 = none)
    (hfit : virStrcpyStaticOk name = true) :
    (virTypedParamsAddString s name none).1 = 0 ∧
    (virTypedParamsAddString s name none).2.1.nparams = s.nparams + 1 ∧
    virTypedParamsGetString (virTypedParamsAddString s name none).2.1.params
        (virTypedParamsAddString s name none).2.1.nparams name true =
      (1, some "", []) := by
  have hassign := assign_string_eq (resSlot s) name none hfit
  have hret : ¬((virTypedParameterAssign (resSlot s) name VIR_TYPED_PARAM_STRING
      (.aString none)).1 < 0) := by
    rw [hassign]
    simp
  have h0 : (virTypedParamsAddString s name none).1 = 0 := by
    show (virTypedParamsAddGen s name _).1 = 0
    rw [addGen_commit s name _ hget hret]
  obtain ⟨hn, hfind⟩ := addString_success s name none hWF h0
  exact ⟨h0, hn, getString_found _ _ _ _ _ hfind rfl⟩

/-- Witness for C9 at a concrete input. -/
theorem addString_null_value_empty_string_witness :
    (virTypedParamsAddString emptyBuf "s" none).1 = 0 ∧
    (virTypedParamsAddString emptyBuf "s" none).2.1.nparams = emptyBuf.nparams + 1 ∧
    virTypedParamsGetString (virTypedParamsAddString emptyBuf "s" none).2.1.params
        (virTypedParamsAddString emptyBuf "s" none).2.1.nparams "s" true =
      (1, some "", []) :=
  addString_null_value_empty_string emptyBuf "s" (by decide) rfl (by decide)

/-- C6: textual boolean parsing — with the boolean tag and non-null text,
assignment from text stores true exactly when the text equals "true"
case-insensitively or "1" exactly, stores false exactly when it equals
"false" case-insensitively or "0" exactly, and fails with an
invalid-argument error and -1 on any other text. -/
theorem assignFromStr_boolean_parse (p : VirTypedParameter) (name val : String)
    (hfit : virStrcpyStaticOk name = true) :
    ((strCaseEq val "true" = true ∨ val = "1") →
      virTypedParameterAssignFromStr p name VIR_TYPED_PARAM_BOOLEAN (some val) =
        (0, { p with
              field := name, type := VIR_TYPED_PARAM_BOOLEAN,
              value := { p.value with b := true } }, [])) ∧
    ((strCaseEq val "false" = true ∨ val = "0") →
      virTypedParameterAssignFromStr p name VIR_TYPED_PARAM_BOOLEAN (some val) =
        (0, { p with
              field := name, type := VIR_TYPED_PARAM_BOOLEAN,
              value := { p.value with b := false } }, [])) ∧
    (¬(strCaseEq val "true" = true ∨ val = "1") →
     ¬(strCaseEq val "false" = true ∨ val = "0") →
      virTypedParameterAssignFromStr p name VIR_TYPED_PARAM_BOOLEAN (some val) =
        (-1, { p with field := name, type := VIR_TYPED_PARAM_BOOLEAN },
         [errInvalidBoolean name])) := by
  refine ⟨?_, ?_, ?_⟩
  · intro hc
    have hb : (strCaseEq val "true" || val == "1") = true := by
      rcases hc with h1 | h1 <;> simp [h1]
    simp [virTypedParameterAssignFromStr, hfit, hb, VIR_TYPED_PARAM_INT,
      VIR_TYPED_PARAM_UINT, VIR_TYPED_PARAM_LLONG, VIR_TYPED_PARAM_ULLONG,
      VIR_TYPED_PARAM_DOUBLE, VIR_TYPED_PARAM_BOOLEAN, VIR_TYPED_PARAM_STRING]
  · intro hc
    have hb1 : (strCaseEq val "true" || val == "1") = false := by
      rcases hc with h1 | h1
      · have hv : val.data.map asciiLower = "false".data.map asciiLower := by
          have := h1
          simp only [strCaseEq, beq_iff_eq] at this
          exact this
        simp only [Bool.or_eq_false_iff]
        constructor
        · by_contra hcon
          simp only [Bool.not_eq_false] at hcon
          have hv2 : val.data.map asciiLower = "true".data.map asciiLower := by
            simp only [strCaseEq, beq_iff_eq] at hcon
            exact hcon
          rw [hv] at hv2
          exact absurd hv2 (by decide)
        · by_contra hcon
          simp only [Bool.not_eq_false, beq_iff_eq] at hcon
          subst hcon
          exact absurd hv (by decide)
      · subst h1
        decide
    have hb2 : (strCaseEq val "false" || val == "0") = true := by
      rcases hc with h1 | h1 <;> simp [h1]
    simp [virTypedParameterAssignFromStr, hfit, hb1, hb2, VIR_TYPED_PARAM_INT,
      VIR_TYPED_PARAM_UINT, VIR_TYPED_PARAM_LLONG, VIR_TYPED_PARAM_ULLONG,
      VIR_TYPED_PARAM_DOUBLE, VIR_TYPED_PARAM_BOOLEAN, VIR_TYPED_PARAM_STRING]
  · intro hnt hnf
    have hb1 : (strCaseEq val "true" || val == "1") = false := by
      simp only [Bool.or_eq_false_iff]
      constructor
      · by_contra hcon
        simp only [Bool.not_eq_false] at hcon
        exact hnt (Or.inl hcon)
      · by_contra hcon
        simp only [Bool.not_eq_false, beq_iff_eq] at hcon
        exact hnt (Or.inr hcon)
    have hb2 : (strCaseEq val "false" || val == "0") = false := by
      simp only [Bool.or_eq_false_iff]
      constructor
      · by_contra hcon
        simp only [Bool.not_eq_false] at hcon
        exact hnf (Or.inl hcon)
      · by_contra hcon
        simp only [Bool.not_eq_false, beq_iff_eq] at hcon
        exact hnf (Or.inr hcon)
    simp [virTypedParameterAssignFromStr, hfit, hb1, hb2, VIR_TYPED_PARAM_INT,
      VIR_TYPED_PARAM_UINT, VIR_TYPED_PARAM_LLONG, VIR_TYPED_PARAM_ULLONG,
      VIR_TYPED_PARAM_DOUBLE, VIR_TYPED_PARAM_BOOLEAN, VIR_TYPED_PARAM_STRING]

/-- Witness for C6: "TRUE" parses to true, "maybe" is rejected. -/
theorem assignFromStr_boolean_parse_witness :
    virTypedParameterAssignFromStr zeroSlot "b" VIR_TYPED_PARAM_BOOLEAN (some "TRUE") =
      (0, { zeroSlot with
            field := "b", type := VIR_TYPED_PARAM_BOOLEAN,
            value := { zeroSlot.value with b := true } }, []) ∧
    virTypedParameterAssignFromStr zeroSlot "b" VIR_TYPED_PARAM_BOOLEAN (some "maybe") =
      (-1, { zeroSlot with field := "b", type := VIR_TYPED_PARAM_BOOLEAN },
       [errInvalidBoolean "b"]) :=
  ⟨(assignFromStr_boolean_parse zeroSlot "b" "TRUE" (by decide)).1 (Or.inl (by decide)),
   (assignFromStr_boolean_parse zeroSlot "b" "maybe" (by decide)).2.2 (by decide) (by decide)⟩

/-- A 80-character name, one byte over the bounded name field. -/
def longName80 : String := String.mk (List.replicate 80 'a')

/-- Counterexample to C8 as stated: from-text assignment with NULL text and
an over-long name reports the invalid-argument "NULL value" error, not an
internal-error — the NULL-text check precedes the name-length check. -/
theorem assignFromStr_null_text_long_name_cex :
    virStrcpyStaticOk longName80 = false ∧
    virTypedParameterAssignFromStr zeroSlot longName80 VIR_TYPED_PARAM_INT none =
      (-1, zeroSlot, [errNullValue longName80]) ∧
    (errNullValue longName80).code = VirErrCode.invalidArg ∧
    errFieldTooLong longName80 ∉
      (virTypedParameterAssignFromStr zeroSlot longName80 VIR_TYPED_PARAM_INT none).2.2 :=
  ⟨by decide, rfl, rfl, by decide⟩

/-- C8 (amended): whenever the supplied name does not fit the bounded name
field, native assignment — and from-text assignment with non-null text —
fail with -1 and the internal-error "Field name too long", before the type
tag or payload is stored: the slot is returned exactly as it was. (With
NULL text the from-text path fails even earlier, with invalid-argument.) -/
theorem assign_long_name_internal_error (p : VirTypedParameter) (name : String)
    (t : Int) (hlong : virStrcpyStaticOk name = false) :
    (∀ a : VirTypedArg, virTypedParameterAssign p name t a =
      (-1, p, [errFieldTooLong name])) ∧
    (∀ v : String, virTypedParameterAssignFromStr p name t (some v) =
      (-1, p, [errFieldTooLong name])) := by
  constructor
  · intro a
    simp [virTypedParameterAssign, hlong]
  · intro v
    simp [virTypedParameterAssignFromStr, hlong]

/-- Witness for C8 (amended) at a concrete over-long name. -/
theorem assign_long_name_internal_error_witness :
    virTypedParameterAssign zeroSlot longName80 VIR_TYPED_PARAM_INT (.aInt 0) =
      (-1, zeroSlot, [errFieldTooLong longName80]) ∧
    virTypedParameterAssignFromStr zeroSlot longName80 VIR_TYPED_PARAM_INT (some "5") =
      (-1, zeroSlot, [errFieldTooLong longName80]) :=
  ⟨(assign_long_name_internal_error zeroSlot longName80 VIR_TYPED_PARAM_INT
      (by decide)).1 (.aInt 0),
   (assign_long_name_internal_error zeroSlot longName80 VIR_TYPED_PARAM_INT
      (by decide)).2 "5"⟩

/-- C10: when assignment (native, or from text with non-null text) fails
after the name check has succeeded — unknown type tag or failed text parse —
it returns -1 but the slot has already been mutated: its name field holds
the supplied name and its type tag the requested tag (and nothing else has
been written). -/
theorem assign_failure_slot_mutated (p : VirTypedParameter) (name : String)
    (t : Int) (hfit : virStrcpyStaticOk name = true) :
    (∀ a : VirTypedArg, (virTypedParameterAssign p name t a).1 = -1 →
      (virTypedParameterAssign p name t a).2.1 =
        { p with field := name, type := t }) ∧
    (∀ v : String, (virTypedParameterAssignFromStr p name t (some v)).1 = -1 →
      (virTypedParameterAssignFromStr p name t (some v)).2.1 =
        { p with field := name, type := t }) := by
  constructor
  · intro a h
    by_cases h1 : t = (1 : Int)
    · simp [virTypedParameterAssign, hfit, h1, VIR_TYPED_PARAM_INT, VIR_TYPED_PARAM_UINT, VIR_TYPED_PARAM_LLONG, VIR_TYPED_PARAM_ULLONG, VIR_TYPED_PARAM_DOUBLE, VIR_TYPED_PARAM_BOOLEAN, VIR_TYPED_PARAM_STRING] at h
    · by_cases h2 : t = (2 : Int)
      · simp [virTypedParameterAssign, hfit, h1, h2, VIR_TYPED_PARAM_INT, VIR_TYPED_PARAM_UINT, VIR_TYPED_PARAM_LLONG, VIR_TYPED_PARAM_ULLONG, VIR_TYPED_PARAM_DOUBLE, VIR_TYPED_PARAM_BOOLEAN, VIR_TYPED_PARAM_STRING] at h
      · by_cases h3 : t = (3 : Int)
        · simp [virTypedParameterAssign, hfit, h1, h2, h3, VIR_TYPED_PARAM_INT, VIR_TYPED_PARAM_UINT, VIR_TYPED_PARAM_LLONG, VIR_TYPED_PARAM_ULLONG, VIR_TYPED_PARAM_DOUBLE, VIR_TYPED_PARAM_BOOLEAN, VIR_TYPED_PARAM_STRING] at h
        · by_cases h4 : t = (4 : Int)
          · simp [virTypedParameterAssign, hfit, h1, h2, h3, h4, VIR_TYPED_PARAM_INT, VIR_TYPED_PARAM_UINT, VIR_TYPED_PARAM_LLONG, VIR_TYPED_PARAM_ULLONG, VIR_TYPED_PARAM_DOUBLE, VIR_TYPED_PARAM_BOOLEAN, VIR_TYPED_PARAM_STRING] at h
          · by_cases h5 : t = (5 : Int)
            · simp [virTypedParameterAssign, hfit, h1, h2, h3, h4, h5, VIR_TYPED_PARAM_INT, VIR_TYPED_PARAM_UINT, VIR_TYPED_PARAM_LLONG, VIR_TYPED_PARAM_ULLONG, VIR_TYPED_PARAM_DOUBLE, VIR_TYPED_PARAM_BOOLEAN, VIR_TYPED_PARAM_STRING] at h
            · by_cases h6 : t = (6 : Int)
              · simp [virTypedParameterAssign, hfit, h1, h2, h3, h4, h5, h6, VIR_TYPED_PARAM_INT, VIR_TYPED_PARAM_UINT, VIR_TYPED_PARAM_LLONG, VIR_TYPED_PARAM_ULLONG, VIR_TYPED_PARAM_DOUBLE, VIR_TYPED_PARAM_BOOLEAN, VIR_TYPED_PARAM_STRING] at h
              · by_cases h7 : t = (7 : Int)
                · simp [virTypedParameterAssign, hfit, h1, h2, h3, h4, h5, h6, h7, VIR_TYPED_PARAM_INT, VIR_TYPED_PARAM_UINT, VIR_TYPED_PARAM_LLONG, VIR_TYPED_PARAM_ULLONG, VIR_TYPED_PARAM_DOUBLE, VIR_TYPED_PARAM_BOOLEAN, VIR_TYPED_PARAM_STRING] at h
                · simp [virTypedParameterAssign, hfit, h1, h2, h3, h4, h5, h6, h7, VIR_TYPED_PARAM_INT, VIR_TYPED_PARAM_UINT, VIR_TYPED_PARAM_LLONG, VIR_TYPED_PARAM_ULLONG, VIR_TYPED_PARAM_DOUBLE, VIR_TYPED_PARAM_BOOLEAN, VIR_TYPED_PARAM_STRING]
  · intro v h
    by_cases h1 : t = (1 : Int)
    · rcases hp1 : virStrToLong_i v with _ | x <;>
        simp [virTypedParameterAssignFromStr, hfit, h1, hp1, VIR_TYPED_PARAM_INT, VIR_TYPED_PARAM_UINT, VIR_TYPED_PARAM_LLONG, VIR_TYPED_PARAM_ULLONG, VIR_TYPED_PARAM_DOUBLE, VIR_TYPED_PARAM_BOOLEAN, VIR_TYPED_PARAM_STRING] at h ⊢
    · by_cases h2 : t = (2 : Int)
      · rcases hp2 : virStrToLong_ui v with _ | x <;>
          simp [virTypedParameterAssignFromStr, hfit, h1, h2, hp2, VIR_TYPED_PARAM_INT, VIR_TYPED_PARAM_UINT, VIR_TYPED_PARAM_LLONG, VIR_TYPED_PARAM_ULLONG, VIR_TYPED_PARAM_DOUBLE, VIR_TYPED_PARAM_BOOLEAN, VIR_TYPED_PARAM_STRING] at h ⊢
      · by_cases h3 : t = (3 : Int)
        · rcases hp3 : virStrToLong_ll v with _ | x <;>
            simp [virTypedParameterAssignFromStr, hfit, h1, h2, h3, hp3, VIR_TYPED_PARAM_INT, VIR_TYPED_PARAM_UINT, VIR_TYPED_PARAM_LLONG, VIR_TYPED_PARAM_ULLONG, VIR_TYPED_PARAM_DOUBLE, VIR_TYPED_PARAM_BOOLEAN, VIR_TYPED_PARAM_STRING] at h ⊢
        · by_cases h4 : t = (4 : Int)
          · rcases hp4 : virStrToLong_ull v with _ | x <;>
              simp [virTypedParameterAssignFromStr, hfit, h1, h2, h3, h4, hp4, VIR_TYPED_PARAM_INT, VIR_TYPED_PARAM_UINT, VIR_TYPED_PARAM_LLONG, VIR_TYPED_PARAM_ULLONG, VIR_TYPED_PARAM_DOUBLE, VIR_TYPED_PARAM_BOOLEAN, VIR_TYPED_PARAM_STRING] at h ⊢
          · by_cases h5 : t = (5 : Int)
            · rcases hp5 : virStrToDouble v with _ | x <;>
                simp [virTypedParameterAssignFromStr, hfit, h1, h2, h3, h4, h5, hp5, VIR_TYPED_PARAM_INT, VIR_TYPED_PARAM_UINT, VIR_TYPED_PARAM_LLONG, VIR_TYPED_PARAM_ULLONG, VIR_TYPED_PARAM_DOUBLE, VIR_TYPED_PARAM_BOOLEAN, VIR_TYPED_PARAM_STRING] at h ⊢
            · by_cases h6 : t = (6 : Int)
              · by_cases hb1 : (strCaseEq v "true" || v == "1") = true
                · simp [virTypedParameterAssignFromStr, hfit, h1, h2, h3, h4, h5, h6, hb1, VIR_TYPED_PARAM_INT, VIR_TYPED_PARAM_UINT, VIR_TYPED_PARAM_LLONG, VIR_TYPED_PARAM_ULLONG, VIR_TYPED_PARAM_DOUBLE, VIR_TYPED_PARAM_BOOLEAN, VIR_TYPED_PARAM_STRING] at h
                · by_cases hb2 : (strCaseEq v "false" || v == "0") = true
                  · simp [virTypedParameterAssignFromStr, hfit, h1, h2, h3, h4, h5, h6,
                      hb1, hb2, VIR_TYPED_PARAM_INT, VIR_TYPED_PARAM_UINT, VIR_TYPED_PARAM_LLONG, VIR_TYPED_PARAM_ULLONG, VIR_TYPED_PARAM_DOUBLE, VIR_TYPED_PARAM_BOOLEAN, VIR_TYPED_PARAM_STRING] at h
                  · simp [virTypedParameterAssignFromStr, hfit, h1, h2, h3, h4, h5, h6,
                      hb1, hb2, VIR_TYPED_PARAM_INT, VIR_TYPED_PARAM_UINT, VIR_TYPED_PARAM_LLONG, VIR_TYPED_PARAM_ULLONG, VIR_TYPED_PARAM_DOUBLE, VIR_TYPED_PARAM_BOOLEAN, VIR_TYPED_PARAM_STRING]
              · by_cases h7 : t = (7 : Int)
                · simp [virTypedParameterAssignFromStr, hfit, h1, h2, h3, h4, h5, h6, h7, VIR_TYPED_PARAM_INT, VIR_TYPED_PARAM_UINT, VIR_TYPED_PARAM_LLONG, VIR_TYPED_PARAM_ULLONG, VIR_TYPED_PARAM_DOUBLE, VIR_TYPED_PARAM_BOOLEAN, VIR_TYPED_PARAM_STRING] at h
                · simp [virTypedParameterAssignFromStr, hfit, h1, h2, h3, h4, h5, h6, h7, VIR_TYPED_PARAM_INT, VIR_TYPED_PARAM_UINT, VIR_TYPED_PARAM_LLONG, VIR_TYPED_PARAM_ULLONG, VIR_TYPED_PARAM_DOUBLE, VIR_TYPED_PARAM_BOOLEAN, VIR_TYPED_PARAM_STRING]

/-- Witness for C10: an unknown tag (99) for the native path and a
non-numeric text for the int tag on the text path. -/
theorem assign_failure_slot_mutated_witness :
    (virTypedParameterAssign zeroSlot "n" 99 (.aInt 0)).2.1 =
      { zeroSlot with field := "n", type := 99 } ∧
    (virTypedParameterAssignFromStr zeroSlot "n" VIR_TYPED_PARAM_INT (some "abc")).2.1 =
      { zeroSlot with field := "n", type := VIR_TYPED_PARAM_INT } :=
  ⟨(assign_failure_slot_mutated zeroSlot "n" 99 (by decide)).1 (.aInt 0) (by decide),
   (assign_failure_slot_mutated zeroSlot "n" VIR_TYPED_PARAM_INT
      (by decide)).2 "abc" (by decide)⟩

lemma find?_first {A : Type} (p : A → Bool) (l : List A) (a : A)
    (h : l.find? p = some a) :
    ∃ i, ∃ hi : i < l.length, l[i] = a ∧ p a = true ∧
      ∀ j (hj : j < l.length), j < i → p (l[j]) = false := by
  induction l with
  | nil => simp [List.find?] at h
  | cons x xs ih =>
    by_cases hp : p x = true
    · rw [List.find?_cons_of_pos _ hp] at h
      have hxa : x = a := by injection h
      subst hxa
      exact ⟨0, by simp, rfl, hp, fun j hj hlt => absurd hlt (by omega)⟩
    · have hp2 : ¬p x := by simpa using hp
      rw [List.find?_cons_of_neg _ hp2] at h
      obtain ⟨i, hi, hget, hpa, hmin⟩ := ih h
      refine ⟨i + 1, by simpa using Nat.succ_lt_succ hi, ?_, hpa, ?_⟩
      · simpa using hget
      · intro j hj hlt
        cases j with
        | zero => simpa using hp
        | succ m =>
          have hm : m < xs.length := by simpa using hj
          have := hmin m hm (by omega)
          simpa using this

/-- C7: virTypedParamsGet returns the first (lowest-index) live entry whose
name equals the given name under case-sensitive equality; it returns absent
(none) when no live entry matches or when the params pointer or the name is
NULL; and it reports no error in any of these cases. -/
theorem typedParamsGet_lookup_spec (ps : List VirTypedParameter) (n : Nat)
    (nm : String) :
    virTypedParamsGet none n (some nm) = (none, []) ∧
    virTypedParamsGet (some ps) n none = (none, []) ∧
    virTypedParamsGet none n none = (none, []) ∧
    (virTypedParamsGet (some ps) n (some nm)).2 = [] ∧
    (∀ p, (virTypedParamsGet (some ps) n (some nm)).1 = some p →
      ∃ i, i < n ∧ ∃ hi : i < ps.length,
        ps[i] = p ∧ p.field = nm ∧
        ∀ j (hj : j < ps.length), j < i → (ps[j]).field ≠ nm) ∧
    ((virTypedParamsGet (some ps) n (some nm)).1 = none →
      ∀ i (hi : i < ps.length), i < n → (ps[i]).field ≠ nm) := by
  refine ⟨rfl, rfl, rfl, rfl, ?_, ?_⟩
  · intro p hp
    have hp2 : (ps.take n).find? (fun q => q.field == nm) = some p := hp
    obtain ⟨i, hi, hget, hpa, hmin⟩ := find?_first _ _ _ hp2
    have hlen : (ps.take n).length = min n ps.length := List.length_take _ _
    have hin : i < n := lt_of_lt_of_le (hlen ▸ hi) (Nat.min_le_left _ _)
    have hips : i < ps.length := lt_of_lt_of_le (hlen ▸ hi) (Nat.min_le_right _ _)
    refine ⟨i, hin, hips, ?_, ?_, ?_⟩
    · rw [← List.getElem_take ps]
      exact hget
    · simpa using hpa
    · intro j hj hlt
      have hjt : j < (ps.take n).length := by omega
      have := hmin j hjt hlt
      rw [List.getElem_take ps] at this
      simpa using this
  · intro hnone i hi hin
    have hm : i < (ps.take n).length := by
      rw [List.length_take]
      exact Nat.lt_min.mpr ⟨hin, hi⟩
    have hmem := List.find?_eq_none.mp hnone ((ps.take n)[i]) (List.getElem_mem _)
    rw [List.getElem_take ps] at hmem
    intro hcon
    exact hmem (by simp [hcon])

/-- Witness for C7 at a concrete two-element collection: the match for "n"
is at index 1, index 0 does not match. -/
theorem typedParamsGet_lookup_spec_witness :
    ∃ i, i < 2 ∧
      ∃ hi : i < [mkP "a" VIR_TYPED_PARAM_INT, mkP "n" VIR_TYPED_PARAM_INT].length,
        [mkP "a" VIR_TYPED_PARAM_INT, mkP "n" VIR_TYPED_PARAM_INT][i] =
            mkP "n" VIR_TYPED_PARAM_INT ∧
          (mkP "n" VIR_TYPED_PARAM_INT).field = "n" ∧
          ∀ j (hj : j < [mkP "a" VIR_TYPED_PARAM_INT, mkP "n" VIR_TYPED_PARAM_INT].length),
            j < i →
            ([mkP "a" VIR_TYPED_PARAM_INT, mkP "n" VIR_TYPED_PARAM_INT][j]).field ≠ "n" :=
  (typedParamsGet_lookup_spec [mkP "a" VIR_TYPED_PARAM_INT, mkP "n" VIR_TYPED_PARAM_INT]
      2 "n").2.2.2.2.1 (mkP "n" VIR_TYPED_PARAM_INT) (by decide)

/-- C1 (code evidence): a parameter whose name matches a schema entry but
whose type differs makes virTypedParameterArrayValidate report the
invalid-type error and yet return 0 — the mismatch branch breaks out of the
schema scan without jumping to the failure exit, so the claimed (and
self-documented) non-zero result never happens. -/
theorem validate_type_mismatch_returns_zero :
    virTypedParameterArrayValidate [mkP "n" VIR_TYPED_PARAM_UINT] 1
        [("n", VIR_TYPED_PARAM_INT)] =
      (0, [errInvalidTypeValidate (mkP "n" VIR_TYPED_PARAM_UINT) VIR_TYPED_PARAM_INT]) ∧
    ((0 : Int), [errInvalidTypeValidate (mkP "n" VIR_TYPED_PARAM_UINT) VIR_TYPED_PARAM_INT]) ≠
      (-1, [errInvalidTypeValidate (mkP "n" VIR_TYPED_PARAM_UINT) VIR_TYPED_PARAM_INT]) :=
  ⟨rfl, by decide⟩

/-- Counterexample to C2 as stated: the parameters at indices 0 and 1 share
the name "x", but "x" matches no schema entry, so the loop stops at index 0
with "not supported" and the "occurs multiple times" error is never
reported at all. -/
theorem validate_duplicate_error_message_cex :
    virTypedParameterArrayValidate
        [mkP "x" VIR_TYPED_PARAM_INT, mkP "x" VIR_TYPED_PARAM_INT] 2
        [("y", VIR_TYPED_PARAM_INT)] =
      (-1, [errNotSupported "x"]) ∧
    errOccursMultipleTimes "x" ∉
      (virTypedParameterArrayValidate
        [mkP "x" VIR_TYPED_PARAM_INT, mkP "x" VIR_TYPED_PARAM_INT] 2
        [("y", VIR_TYPED_PARAM_INT)]).2 :=
  ⟨rfl, by decide⟩

lemma validateGo_offender (schema : List (String × Int)) (bad : VirTypedParameter)
    (rest : List VirTypedParameter) :
    ∀ (good prior : List VirTypedParameter) (errs : List VirError),
      cleanChain schema prior good = true →
      passesValidate schema (prior ++ good) bad = false →
      (validateGo schema prior (good ++ bad :: rest) errs).1 = -1 ∧
      (validateGo schema prior (good ++ bad :: rest) errs).2.getLast? =
        some (if (findSchema schema bad.field).isSome then
                errOccursMultipleTimes bad.field
              else errNotSupported bad.field) := by
  intro good
  induction good with
  | nil =>
    intro prior errs hc hbad
    rw [List.append_nil] at hbad
    cases hfs : findSchema schema bad.field with
    | none =>
      constructor
      · simp [validateGo, hfs]
      · simp [validateGo, hfs, List.getLast?_concat]
    | some ty =>
      have hdup : (prior.any (fun q => q.field == bad.field)) = true := by
        cases hval : prior.any (fun q => q.field == bad.field)
        · exfalso
          unfold passesValidate at hbad
          rw [hfs] at hbad
          simp [hval] at hbad
        · rfl
      constructor
      · simp [validateGo, hfs, hdup]
      · simp [validateGo, hfs, hdup, List.getLast?_concat]
  | cons q g ih =>
    intro prior errs hc hbad
    have hq : passesValidate schema prior q = true := by
      simp only [cleanChain, Bool.and_eq_true] at hc
      exact hc.1
    have hg : cleanChain schema (prior ++ [q]) g = true := by
      simp only [cleanChain, Bool.and_eq_true] at hc
      exact hc.2
    have hqs : (findSchema schema q.field).isSome = true := by
      cases hval : (findSchema schema q.field).isSome
      · exfalso
        unfold passesValidate at hq
        simp [hval] at hq
      · rfl
    obtain ⟨ty, hty⟩ := Option.isSome_iff_exists.mp hqs
    have hnodup : (prior.any (fun r => r.field == q.field)) = false := by
      cases hval : prior.any (fun r => r.field == q.field)
      · rfl
      · exfalso
        unfold passesValidate at hq
        simp [hval] at hq
    have hbad2 : passesValidate schema ((prior ++ [q]) ++ g) bad = false := by
      rw [List.append_assoc]
      simpa using hbad
    constructor
    · simp only [List.cons_append, validateGo, hty, hnodup]
      simp only [Bool.false_eq_true, if_false]
      exact (ih (prior ++ [q]) _ hg hbad2).1
    · simp only [List.cons_append, validateGo, hty, hnodup]
      simp only [Bool.false_eq_true, if_false]
      exact (ih (prior ++ [q]) _ hg hbad2).2

/-- C2 (amended): if some parameter fails the validator — its name matches
no schema entry, or it repeats an earlier parameter's name — then validate
returns -1; the final reported error is determined by the first offending
index, with the schema-membership check made before the duplicate check:
"not supported" when that parameter's name matches no schema entry, and
"occurs multiple times" when its name is in the schema but repeats an
earlier name. (As stated the claim is false: a duplicated name that is
absent from the schema is reported as "not supported", and "occurs multiple
times" is never reported.) -/
theorem validate_first_offender_error (params : List VirTypedParameter)
    (nparams : Nat) (schema : List (String × Int))
    (good : List VirTypedParameter) (bad : VirTypedParameter)
    (rest : List VirTypedParameter)
    (hsplit : params.take nparams = good ++ bad :: rest)
    (hgood : cleanChain schema [] good = true)
    (hbad : passesValidate schema good bad = false) :
    (virTypedParameterArrayValidate params nparams schema).1 = -1 ∧
    (virTypedParameterArrayValidate params nparams schema).2.getLast? =
      some (if (findSchema schema bad.field).isSome then
              errOccursMultipleTimes bad.field
            else errNotSupported bad.field) := by
  unfold virTypedParameterArrayValidate
  rw [hsplit]
  exact validateGo_offender schema bad rest good [] [] hgood (by simpa using hbad)

/-- Witness for C2 (amended): a duplicated schema-supported name; the final
error is "occurs multiple times" and the result is -1. -/
theorem validate_first_offender_error_witness :
    (virTypedParameterArrayValidate
        [mkP "x" VIR_TYPED_PARAM_INT, mkP "x" VIR_TYPED_PARAM_INT] 2
        [("x", VIR_TYPED_PARAM_INT)]).1 = -1 ∧
    (virTypedParameterArrayValidate
        [mkP "x" VIR_TYPED_PARAM_INT, mkP "x" VIR_TYPED_PARAM_INT] 2
        [("x", VIR_TYPED_PARAM_INT)]).2.getLast? =
      some (if (findSchema [("x", VIR_TYPED_PARAM_INT)]
                  (mkP "x" VIR_TYPED_PARAM_INT).field).isSome then
              errOccursMultipleTimes (mkP "x" VIR_TYPED_PARAM_INT).field
            else errNotSupported (mkP "x" VIR_TYPED_PARAM_INT).field) :=
  validate_first_offender_error
    [mkP "x" VIR_TYPED_PARAM_INT, mkP "x" VIR_TYPED_PARAM_INT] 2
    [("x", VIR_TYPED_PARAM_INT)] [mkP "x" VIR_TYPED_PARAM_INT]
    (mkP "x" VIR_TYPED_PARAM_INT) [] (by decide) (by decide) (by decide)

end Virt
